import Mathlib

/-!
Verification development for the bluebeam-pdf-converter annotation conversion
engine (`backend/app/services`).  The Python services are shallowly embedded:
Python dicts become association lists, machine floats become exact rationals,
fallible operations return `Option`/`Except`, and external collaborators
(filesystem, PDF reader, uuid generator, clock, image decoder, JSON override
store) are passed in as explicit parameters, mirroring the dependency
injection used by `AnnotationReplacer`.
-/

namespace PdfConv

/-! ## Python dict model: association lists with first-match lookup -/

/-- Lookup in an association list (model of Python `dict.get`). -/
def alookup {α : Type} : List (String × α) → String → Option α
  | [], _ => none
  | (k, v) :: rest, key => if k = key then some v else alookup rest key

/-- Insert-or-update in an association list (model of Python `dict[k] = v`). -/
def aset {α : Type} : List (String × α) → String → α → List (String × α)
  | [], key, v => [(key, v)]
  | (k, w) :: rest, key, v =>
      if k = key then (k, v) :: rest else (k, w) :: aset rest key v

/-! ## Device identifier assigner (`icon_config.py`, `IconIdAssigner`) -/

/-- Model of the `IdPrefixConfig` TypedDict: prefix letters, starting number
and an optional format string (`"prefix_first"` by default). -/
structure IdPrefixCfg where
  pfx : String
  start : Nat
  format : Option String := none
deriving DecidableEq, Repr

/-- The `ID_PREFIX_CONFIG` table from `icon_config.py`, verbatim. -/
def ID_PREFIX_CONFIG : List (String × IdPrefixCfg) := [
  ("AP - Cisco MR36H", { pfx := "j", start := 100 }),
  ("AP - Cisco MR78", { pfx := "k", start := 100 }),
  ("AP - Cisco 9166I", { pfx := "l", start := 100 }),
  ("AP - Cisco 9166D", { pfx := "m", start := 100 }),
  ("AP - Cisco 9120", { pfx := "n", start := 100 }),
  ("AP - Cisco Marlin 4", { pfx := "o", start := 100 }),
  ("AP - Cisco DB10", { pfx := "p", start := 100 }),
  ("CCTV - Cisco MV93X", { pfx := "a", start := 100, format := some "number_first" }),
  ("CCTV - AXIS P5655-E", { pfx := "b", start := 100, format := some "number_first" }),
  ("CCTV - AXIS M5526-E", { pfx := "c", start := 100, format := some "number_first" }),
  ("HL - Access Control", { pfx := "aa", start := 100 }),
  ("HL - Artist", { pfx := "bb", start := 100 }),
  ("HL - Audio", { pfx := "cc", start := 100 }),
  ("HL - CCTV", { pfx := "dd", start := 100 }),
  ("HL - Clair", { pfx := "ee", start := 100 }),
  ("HL - Emergency Announce System", { pfx := "ff", start := 100 }),
  ("HL - General Internet", { pfx := "gg", start := 100 }),
  ("HL - IPTV", { pfx := "hh", start := 100 }),
  ("HL - Lighting", { pfx := "ii", start := 100 }),
  ("HL - Media", { pfx := "jj", start := 100 }),
  ("HL - PoS", { pfx := "kk", start := 100 }),
  ("HL - Production", { pfx := "ll", start := 100 }),
  ("HL - Radios", { pfx := "mm", start := 100 }),
  ("HL - Sponsor", { pfx := "nn", start := 100 }),
  ("HL - Streaming", { pfx := "oo", start := 100 }),
  ("HL - Video", { pfx := "pp", start := 100 }),
  ("P2P - Ubiquiti NanoBeam", { pfx := "s", start := 100 }),
  ("P2P - Ubiquiti LiteAP", { pfx := "t", start := 100 }),
  ("P2P - Ubiquiti Wave Nano", { pfx := "u", start := 100 }),
  ("P2P - Ubiquiti Wave Pico", { pfx := "v", start := 100 }),
  ("P2P - Ubiquiti Wave AP Micro", { pfx := "w", start := 100 }),
  ("P2P - Ubiquiti GigaBeam", { pfx := "x", start := 100 }),
  ("P2P - Ubiquiti GigaBeam LR", { pfx := "y", start := 100 }),
  ("SW - Cisco Micro 4P", { pfx := "a", start := 100 }),
  ("SW - Fortinet 108F 8P", { pfx := "b", start := 100 }),
  ("SW - Cisco 9200 12P", { pfx := "c", start := 100 }),
  ("SW - Cisco 9300X 24X", { pfx := "d", start := 300 }),
  ("SW - Cisco 9300 12X36M", { pfx := "d", start := 500 }),
  ("SW - Cisco 9300X 24Y", { pfx := "d", start := 700 }),
  ("SW - Cisco 9500 48Y4C", { pfx := "d", start := 900 }),
  ("SW - IDF Cisco 9300 24X", { pfx := "e", start := 100 }),
  ("SW - IDF Cisco 9300X 24X", { pfx := "e", start := 300 }),
  ("SW - IDF Cisco 9300 12X36M", { pfx := "e", start := 500 }),
  ("SW - IDF Cisco 9300X 24Y", { pfx := "e", start := 700 }),
  ("SW - IDF Cisco 9500 48Y4C", { pfx := "e", start := 900 }),
  ("DIST - Micro NOC", { pfx := "f", start := 100 }),
  ("DIST - Mini NOC", { pfx := "f", start := 100 }),
  ("DIST - Standard NOC", { pfx := "f", start := 100 }),
  ("DIST - Mega NOC", { pfx := "f", start := 100 }),
  ("DIST - Pelican NOC", { pfx := "f", start := 100 })]

/-- `get_id_prefix_config` / `ID_PREFIX_CONFIG.get(subject)`. -/
def getIdPrefixConfig (subject : String) : Option IdPrefixCfg :=
  alookup ID_PREFIX_CONFIG subject

/-- The assigner's mutable state `self._counters` (a Python dict). -/
abbrev Counters := List (String × Nat)

/-- The counter key `f"{prefix}_{start}"` from `get_next_id`. -/
def counterKey (cfg : IdPrefixCfg) : String :=
  cfg.pfx ++ "_" ++ toString cfg.start

/-- The label formatting at the end of `get_next_id`:
`f"{current_num}{prefix}"` for `number_first`, else `f"{prefix}{current_num}"`. -/
def formatIdLabel (cfg : IdPrefixCfg) (n : Nat) : String :=
  if cfg.format.getD "prefix_first" = "number_first" then toString n ++ cfg.pfx
  else cfg.pfx ++ toString n

/-- `IconIdAssigner.get_next_id`, with the counters dict passed explicitly
(state-passing model of the mutable attribute). -/
def getNextId (counters : Counters) (deploymentSubject : String) :
    Option String × Counters :=
  match getIdPrefixConfig deploymentSubject with
  | none => (none, counters)
  | some cfg =>
      let key := counterKey cfg
      let currentNum :=
        match alookup counters key with
        | none => cfg.start
        | some v => v + 1
      (some (formatIdLabel cfg currentNum), aset counters key currentNum)

/-- Observer variant of `getNextId` that exposes the configuration and the
numeric value drawn, before formatting.  Used to state the spec's
"strictly increasing numeric parts" properties. -/
def stepNum (counters : Counters) (deploymentSubject : String) :
    Option (IdPrefixCfg × Nat) × Counters :=
  match getIdPrefixConfig deploymentSubject with
  | none => (none, counters)
  | some cfg =>
      let key := counterKey cfg
      let currentNum :=
        match alookup counters key with
        | none => cfg.start
        | some v => v + 1
      (some (cfg, currentNum), aset counters key currentNum)

/-- `IconIdAssigner.reset`: `self._counters.clear()`. -/
def resetAssigner (_counters : Counters) : Counters := []

/-- A sequence of `get_next_id` calls, returning the emitted labels and the
final counters. -/
def runIds : List String → Counters → List (Option String) × Counters
  | [], s => ([], s)
  | subj :: rest, s =>
      let r := getNextId s subj
      let rs := runIds rest r.2
      (r.1 :: rs.1, rs.2)

/-- The same sequence of calls observed through `stepNum`. -/
def runNums : List String → Counters → List (Option (IdPrefixCfg × Nat)) × Counters
  | [], s => ([], s)
  | subj :: rest, s =>
      let r := stepNum s subj
      let rs := runNums rest r.2
      (r.1 :: rs.1, rs.2)

/-- Whether a subject's configuration draws from counter `K`. -/
def hitsKey (K : String) (subj : String) : Bool :=
  match getIdPrefixConfig subj with
  | some cfg => counterKey cfg == K
  | none => false

/-- The numeric values drawn from counter `K` in an observed run. -/
def numsAt (K : String) (l : List (Option (IdPrefixCfg × Nat))) : List Nat :=
  l.filterMap fun o =>
    match o with
    | some (cfg, n) => if counterKey cfg = K then some n else none
    | none => none

/-! ## Icon style resolver (`icon_config.py`) -/

/-- An RGB color triple in the 0-1 range (Python float tuples become exact
rationals). -/
abbrev Color := ℚ × ℚ × ℚ

/-- An icon configuration dict.  Every key that the services read is a field;
`none` models the key being absent from the dict.  `id_text_color` is
`Option (Option Color)` because the Python tables store the key with value
`None` (`some none`), which `config.get(...) or ...` treats like absence.
`image_path` is `Option (Option String)` for the same reason.  The
`layer_order` key (only read by the tuner UI) is not modelled. -/
structure IconConfig where
  circle_color : Option Color := none
  circle_border_width : Option ℚ := none
  circle_border_color : Option Color := none
  id_box_height : Option ℚ := none
  id_box_width_ratio : Option ℚ := none
  id_box_border_width : Option ℚ := none
  id_box_y_offset : Option ℚ := none
  id_font_size : Option ℚ := none
  no_id_box : Option Bool := none
  img_scale_ratio : Option ℚ := none
  img_x_offset : Option ℚ := none
  img_y_offset : Option ℚ := none
  brand_text : Option String := none
  brand_font_size : Option ℚ := none
  brand_y_offset : Option ℚ := none
  brand_x_offset : Option ℚ := none
  model_font_size : Option ℚ := none
  model_y_offset : Option ℚ := none
  model_x_offset : Option ℚ := none
  font_name : Option String := none
  text_color : Option Color := none
  id_text_color : Option (Option Color) := none
  model_uppercase : Option Bool := none
  no_image : Option Bool := none
  model_text_override : Option String := none
  image_path : Option (Option String) := none
  category : Option String := none
deriving DecidableEq, Repr

/-- The empty dict `{}`. -/
def emptyIconConfig : IconConfig := {}

/-- `base.update(o)` on config dicts: a key present in `o` wins, otherwise the
key from `base` is kept. -/
def updateCfg (base o : IconConfig) : IconConfig where
  circle_color := o.circle_color.or base.circle_color
  circle_border_width := o.circle_border_width.or base.circle_border_width
  circle_border_color := o.circle_border_color.or base.circle_border_color
  id_box_height := o.id_box_height.or base.id_box_height
  id_box_width_ratio := o.id_box_width_ratio.or base.id_box_width_ratio
  id_box_border_width := o.id_box_border_width.or base.id_box_border_width
  id_box_y_offset := o.id_box_y_offset.or base.id_box_y_offset
  id_font_size := o.id_font_size.or base.id_font_size
  no_id_box := o.no_id_box.or base.no_id_box
  img_scale_ratio := o.img_scale_ratio.or base.img_scale_ratio
  img_x_offset := o.img_x_offset.or base.img_x_offset
  img_y_offset := o.img_y_offset.or base.img_y_offset
  brand_text := o.brand_text.or base.brand_text
  brand_font_size := o.brand_font_size.or base.brand_font_size
  brand_y_offset := o.brand_y_offset.or base.brand_y_offset
  brand_x_offset := o.brand_x_offset.or base.brand_x_offset
  model_font_size := o.model_font_size.or base.model_font_size
  model_y_offset := o.model_y_offset.or base.model_y_offset
  model_x_offset := o.model_x_offset.or base.model_x_offset
  font_name := o.font_name.or base.font_name
  text_color := o.text_color.or base.text_color
  id_text_color := o.id_text_color.or base.id_text_color
  model_uppercase := o.model_uppercase.or base.model_uppercase
  no_image := o.no_image.or base.no_image
  model_text_override := o.model_text_override.or base.model_text_override
  image_path := o.image_path.or base.image_path
  category := o.category.or base.category

/-- `ICON_CATEGORIES`: deployment subject to category, verbatim from
`icon_config.py`. -/
def ICON_CATEGORIES : List (String × String) := [
  ("AP - Cisco MR36H", "APs"),
  ("AP - Cisco 9120", "APs"),
  ("AP - Cisco 9166I", "APs"),
  ("AP - Cisco 9166D", "APs"),
  ("AP - Cisco MR78", "APs"),
  ("AP - Cisco Marlin 4", "APs"),
  ("AP - Cisco DB10", "APs"),
  ("SW - Cisco Micro 4P", "Switches"),
  ("SW - Cisco 9200 12P", "Switches"),
  ("SW - IDF Cisco 9300 24X", "Switches"),
  ("DIST - Mini NOC", "Switches"),
  ("DIST - Micro NOC", "Switches"),
  ("DIST - Standard NOC", "Switches"),
  ("DIST - Pelican NOC", "Switches"),
  ("DIST - MikroTik Hex", "Switches"),
  ("DIST - Starlink", "Switches"),
  ("DIST - Cisco MX", "Switches"),
  ("DIST - Fortinet FortiGate", "Switches"),
  ("DIST - Mega NOC", "Switches"),
  ("SW - 1G 60W PoE Extender", "Switches"),
  ("SW - 1G PoE+ Injectors", "Switches"),
  ("SW - 1G PoE+ Media Converter", "Switches"),
  ("SW - Cisco 9300 12X36M", "Switches"),
  ("SW - Cisco 9300X 24X", "Switches"),
  ("SW - Cisco 9300X 24Y", "Switches"),
  ("SW - Cisco 9500 48Y4C", "Switches"),
  ("SW - Fortinet 108F 8P", "Switches"),
  ("SW - IDF Cisco 9300 12X36M", "Switches"),
  ("SW - IDF Cisco 9300X 24X", "Switches"),
  ("SW - IDF Cisco 9300X 24Y", "Switches"),
  ("SW - IDF Cisco 9500 48Y4C", "Switches"),
  ("SW - Raspberry Pi", "Switches"),
  ("P2P - Ubiquiti NanoBeam", "P2Ps"),
  ("P2P - Ubiquiti LiteAP", "P2Ps"),
  ("P2P - Ubiquiti GigaBeam", "P2Ps"),
  ("P2P - Ubiquiti GigaBeam LR", "P2Ps"),
  ("P2P - Ubiquiti Wave AP Micro", "P2Ps"),
  ("P2P - Ubiquiti Wave Nano", "P2Ps"),
  ("P2P - Ubiquiti Wave Pico", "P2Ps"),
  ("VOIP - Yealink T29G", "IoT"),
  ("VOIP - Yealink CP965", "IoT"),
  ("CCTV - AXIS P5655-E", "Cameras"),
  ("CCTV - AXIS S9302", "Cameras"),
  ("EAS - Command Unit", "IoT"),
  ("EAS - Laptop", "IoT"),
  ("EAS - Trigger Box", "IoT"),
  ("IPTV - BrightSign XT1144", "IoT"),
  ("CCTV - AXIS M5526-E", "Cameras"),
  ("CCTV - Cisco MV93X", "Cameras"),
  ("SEN - Meraki MT15", "IoT"),
  ("SEN - Meraki MT40", "IoT"),
  ("HL - Artist", "Hardlines"),
  ("HL - Production", "Hardlines"),
  ("HL - PoS", "Hardlines"),
  ("HL - Access Control", "Hardlines"),
  ("HL - Sponsor", "Hardlines"),
  ("HL - General Internet", "Hardlines"),
  ("HL - Audio", "Hardlines"),
  ("HL - Emergency Announce System", "Hardlines"),
  ("HL - WAN", "Hardlines"),
  ("HL -", "Hardlines"),
  ("HL - CCTV", "Hardlines"),
  ("HL - Clair", "Hardlines"),
  ("HL - IPTV", "Hardlines"),
  ("HL - Lighting", "Hardlines"),
  ("HL - Media", "Hardlines"),
  ("HL - Radios", "Hardlines"),
  ("HL - Streaming", "Hardlines"),
  ("HL - Video", "Hardlines"),
  ("HL - LC SM", "Hardlines"),
  ("HL - SC SM", "Hardlines"),
  ("HL - ST SM", "Hardlines"),
  ("FIBER", "Cables"),
  ("INFRA - Fiber Patch Panel", "Misc"),
  ("BOX - Dri Box", "Boxes"),
  ("BOX - Lock Box", "Boxes"),
  ("BOX - Patch Box", "Boxes"),
  ("BOX - Zarges Box", "Boxes"),
  ("BOX - Zarges XL Box", "Boxes"),
  ("PWR - EcoFlow Battery", "Power"),
  ("PWR - EcoFlow Solar Panel", "Power"),
  ("PWR - Liebert UPS", "Power"),
  ("PWR - Pinty Battery", "Power"),
  ("PWR - Quad Box", "Power"),
  ("INFRA - Conduit", "Misc"),
  ("INFRA - Conduit Well", "Misc"),
  ("MISC - Bike Rack", "Misc")]

/-- `CATEGORY_DEFAULTS`: category-level default rendering parameters,
verbatim from `icon_config.py` (floats as exact rationals). -/
def CATEGORY_DEFAULTS : List (String × IconConfig) := [
  ("APs",
    { circle_color := some (2157/10000, 3412/10000, 6431/10000),
      circle_border_width := some (75/100),
      circle_border_color := some (0, 0, 0),
      id_box_height := some (23/10), id_box_width_ratio := some (41/100),
      id_box_border_width := some (35/100), id_font_size := some (39/10),
      img_scale_ratio := some (70/100),
      brand_text := some "CISCO", brand_font_size := some (18/10),
      brand_y_offset := some (-32/10), brand_x_offset := some (-2/10),
      model_font_size := some (22/10), model_y_offset := some (25/10),
      model_x_offset := some (-2/10),
      font_name := some "/Helvetica-Bold", text_color := some (1, 1, 1),
      id_text_color := some none }),
  ("Switches",
    { circle_color := some (267/1000, 714/1000, 290/1000),
      circle_border_width := some (75/100),
      circle_border_color := some (0, 0, 0),
      id_box_height := some (35/10), id_box_width_ratio := some (55/100),
      id_box_border_width := some (45/100), id_font_size := some (32/10),
      img_scale_ratio := some (70/100),
      brand_text := some "", brand_font_size := some (18/10),
      brand_y_offset := some (-32/10), brand_x_offset := some (-2/10),
      model_font_size := some (22/10), model_y_offset := some (25/10),
      model_x_offset := some (-2/10),
      font_name := some "/Helvetica-Bold", text_color := some (1, 1, 1),
      id_text_color := some none }),
  ("P2Ps",
    { circle_color := some (9843/10000, 6392/10000, 1059/10000),
      circle_border_width := some (75/100),
      circle_border_color := some (0, 0, 0),
      id_box_height := some (23/10), id_box_width_ratio := some (41/100),
      id_box_border_width := some (35/100), id_font_size := some (39/10),
      img_scale_ratio := some (70/100),
      brand_text := some "UBIQUITI", brand_font_size := some (18/10),
      brand_y_offset := some (-32/10), brand_x_offset := some (-2/10),
      model_font_size := some (22/10), model_y_offset := some (25/10),
      model_x_offset := some (-2/10),
      font_name := some "/Helvetica-Bold", text_color := some (1, 1, 1),
      id_text_color := some none }),
  ("IoT",
    { circle_color := some (6/10, 3/10, 1/10),
      circle_border_width := some (75/100),
      circle_border_color := some (0, 0, 0),
      id_box_height := some (23/10), id_box_width_ratio := some (41/100),
      id_box_border_width := some (35/100), id_font_size := some (39/10),
      img_scale_ratio := some (70/100),
      brand_text := some "", brand_font_size := some (18/10),
      brand_y_offset := some (-32/10), brand_x_offset := some (-2/10),
      model_font_size := some (22/10), model_y_offset := some (25/10),
      model_x_offset := some (-2/10),
      font_name := some "/Helvetica-Bold", text_color := some (1, 1, 1),
      id_text_color := some none }),
  ("Hardlines",
    { circle_color := some (7882/10000, 1294/10000, 1529/10000),
      circle_border_width := some (75/100),
      circle_border_color := some (0, 0, 0),
      id_box_height := some 4, id_box_width_ratio := some (65/100),
      id_box_border_width := some (5/10), id_font_size := some 3,
      img_scale_ratio := some (12075/10000), img_y_offset := some (-5/10),
      brand_text := some "CAT6", brand_font_size := some (18/10),
      brand_y_offset := some (-32/10), brand_x_offset := some (-5/10),
      model_font_size := some (22/10), model_y_offset := some (25/10),
      model_x_offset := some (-4/10),
      font_name := some "/Helvetica-Bold", text_color := some (1, 1, 1),
      id_text_color := some none,
      model_uppercase := some true }),
  ("Cables",
    { circle_color := some (8/10, 6/10, 0),
      circle_border_width := some (75/100),
      circle_border_color := some (0, 0, 0),
      id_box_height := some (23/10), id_box_width_ratio := some (41/100),
      id_box_border_width := some (35/100), id_font_size := some (39/10),
      img_scale_ratio := some (70/100),
      brand_text := some "", brand_font_size := some (18/10),
      brand_y_offset := some (-32/10), brand_x_offset := some (-2/10),
      model_font_size := some (22/10), model_y_offset := some (25/10),
      model_x_offset := some (-2/10),
      font_name := some "/Helvetica-Bold", text_color := some (1, 1, 1),
      id_text_color := some none,
      no_image := some true }),
  ("Misc",
    { circle_color := some (5/10, 5/10, 5/10),
      circle_border_width := some (75/100),
      circle_border_color := some (0, 0, 0),
      id_box_height := some (23/10), id_box_width_ratio := some (41/100),
      id_box_border_width := some (35/100), id_font_size := some (39/10),
      img_scale_ratio := some (70/100),
      brand_text := some "", brand_font_size := some (18/10),
      brand_y_offset := some (-32/10), brand_x_offset := some (-2/10),
      model_font_size := some (22/10), model_y_offset := some (25/10),
      model_x_offset := some (-2/10),
      font_name := some "/Helvetica-Bold", text_color := some (1, 1, 1),
      id_text_color := some none,
      no_image := some true }),
  ("Power",
    { circle_color := some (4/10, 25/100, 1/10),
      circle_border_width := some (75/100),
      circle_border_color := some (0, 0, 0),
      id_box_height := some (23/10), id_box_width_ratio := some (41/100),
      id_box_border_width := some (35/100), id_font_size := some (39/10),
      img_scale_ratio := some (70/100),
      brand_text := some "", brand_font_size := some (18/10),
      brand_y_offset := some (-32/10), brand_x_offset := some (-2/10),
      model_font_size := some (22/10), model_y_offset := some (25/10),
      model_x_offset := some (-2/10),
      font_name := some "/Helvetica-Bold", text_color := some (1, 1, 1),
      id_text_color := some none }),
  ("Cameras",
    { circle_color := some (3176/10000, 4980/10000, 9098/10000),
      circle_border_width := some (75/100),
      circle_border_color := some (0, 0, 0),
      id_box_height := some (23/10), id_box_width_ratio := some (41/100),
      id_box_border_width := some (35/100), id_font_size := some (39/10),
      img_scale_ratio := some (70/100),
      brand_text := some "", brand_font_size := some (18/10),
      brand_y_offset := some (-32/10), brand_x_offset := some (-2/10),
      model_font_size := some (22/10), model_y_offset := some (25/10),
      model_x_offset := some (-2/10),
      font_name := some "/Helvetica-Bold", text_color := some (1, 1, 1),
      id_text_color := some none }),
  ("Fiber",
    { circle_color := some (7882/10000, 1294/10000, 1529/10000),
      circle_border_width := some (75/100),
      circle_border_color := some (0, 0, 0),
      id_box_height := some (23/10), id_box_width_ratio := some (41/100),
      id_box_border_width := some (35/100), id_font_size := some (39/10),
      img_scale_ratio := some (70/100),
      brand_text := some "FIBER", brand_font_size := some (18/10),
      brand_y_offset := some (-32/10), brand_x_offset := some (-2/10),
      model_font_size := some (22/10), model_y_offset := some (25/10),
      model_x_offset := some (-2/10),
      font_name := some "/Helvetica-Bold", text_color := some (1, 1, 1),
      id_text_color := some none }),
  ("Boxes",
    { circle_color := some (35/100, 35/100, 4/10),
      circle_border_width := some (75/100),
      circle_border_color := some (0, 0, 0),
      id_box_height := some (23/10), id_box_width_ratio := some (41/100),
      id_box_border_width := some (35/100), id_font_size := some (39/10),
      img_scale_ratio := some (70/100),
      brand_text := some "", brand_font_size := some (18/10),
      brand_y_offset := some (-32/10), brand_x_offset := some (-2/10),
      model_font_size := some (22/10), model_y_offset := some (25/10),
      model_x_offset := some (-2/10),
      font_name := some "/Helvetica-Bold", text_color := some (1, 1, 1),
      id_text_color := some none })]

/-- `ICON_OVERRIDES`: per-icon overrides (only keys that differ from the
category defaults), verbatim from `icon_config.py`. -/
def ICON_OVERRIDES : List (String × IconConfig) := [
  ("AP - Cisco MR36H",
    { img_scale_ratio := some (64/100), model_x_offset := some (-1),
      model_y_offset := some 3 }),
  ("AP - Cisco 9120",
    { img_scale_ratio := some (104/100), img_x_offset := some (2/10),
      img_y_offset := some (8/10), model_font_size := some (11/10),
      model_x_offset := some 2, model_y_offset := some 0 }),
  ("AP - Cisco 9166I",
    { img_scale_ratio := some (98/100), model_y_offset := some 3,
      model_x_offset := some 0 }),
  ("AP - Cisco 9166D",
    { img_scale_ratio := some (98/100), img_x_offset := some (-2/10),
      img_y_offset := some (6/10), model_font_size := some 1,
      model_x_offset := some 2, model_y_offset := some 0 }),
  ("AP - Cisco DB10",
    { img_scale_ratio := some (140/100), img_x_offset := some (-2/10),
      img_y_offset := some (-16/10), brand_font_size := some (39/10),
      id_box_height := some (55/10), id_box_width_ratio := some (73/100),
      id_font_size := some (17/10), id_box_border_width := some (7/10),
      model_x_offset := some (-6/10) }),
  ("AP - Cisco MR78",
    { img_scale_ratio := some (104/100), img_x_offset := some (-2/10),
      img_y_offset := some (6/10), model_x_offset := some (-8/10),
      model_y_offset := some (32/10) }),
  ("AP - Cisco Marlin 4",
    { img_scale_ratio := some (132/100), img_x_offset := some (-2/10),
      img_y_offset := some (4/10), model_x_offset := some (-8/10),
      model_y_offset := some (32/10) }),
  ("SW - Cisco Micro 4P", { brand_text := some "CISCO" }),
  ("SW - Cisco 9200 12P",
    { brand_text := some "CISCO", img_scale_ratio := some (137/100),
      img_x_offset := some (-8/10), img_y_offset := some (-2) }),
  ("SW - IDF Cisco 9300 24X",
    { brand_text := some "IDF 6U", img_scale_ratio := some (13125/10000),
      img_y_offset := some (-5/10), img_x_offset := some (-2/10),
      model_text_override := some "9300 24X" }),
  ("DIST - Micro NOC", { img_scale_ratio := some (14/10) }),
  ("DIST - MikroTik Hex", { brand_text := some "MIKROTIK" }),
  ("DIST - Starlink", { brand_text := some "STARLINK" }),
  ("VOIP - Yealink T29G", { brand_text := some "YEALINK" }),
  ("VOIP - Yealink CP965", { brand_text := some "YEALINK" }),
  ("CCTV - AXIS P5655-E", { brand_text := some "AXIS" }),
  ("CCTV - AXIS S9302", { brand_text := some "AXIS" }),
  ("IPTV - BrightSign XT1144", { brand_text := some "BRIGHTSIGN" }),
  ("DIST - Cisco MX", { brand_text := some "CISCO" }),
  ("DIST - Fortinet FortiGate", { brand_text := some "FORTINET" }),
  ("SW - Cisco 9300 12X36M", { brand_text := some "CISCO" }),
  ("SW - Cisco 9300X 24X", { brand_text := some "CISCO" }),
  ("SW - Cisco 9300X 24Y", { brand_text := some "CISCO" }),
  ("SW - Cisco 9500 48Y4C", { brand_text := some "CISCO" }),
  ("SW - Fortinet 108F 8P", { brand_text := some "FORTINET" }),
  ("SW - IDF Cisco 9300 12X36M",
    { brand_text := some "IDF 6U", img_scale_ratio := some (13125/10000),
      img_y_offset := some (-5/10), img_x_offset := some (-2/10),
      model_text_override := some "9300 12X36M" }),
  ("SW - IDF Cisco 9300X 24X",
    { brand_text := some "IDF 6U", img_scale_ratio := some (13125/10000),
      img_y_offset := some (-5/10), img_x_offset := some (-2/10),
      model_text_override := some "9300X 24X" }),
  ("SW - IDF Cisco 9300X 24Y",
    { brand_text := some "IDF 6U", img_scale_ratio := some (13125/10000),
      img_y_offset := some (-5/10), img_x_offset := some (-2/10),
      model_text_override := some "9300X 24Y" }),
  ("SW - IDF Cisco 9500 48Y4C",
    { brand_text := some "IDF 6U", img_scale_ratio := some (13125/10000),
      img_y_offset := some (-5/10), img_x_offset := some (-2/10),
      model_text_override := some "9500 48Y4C" }),
  ("CCTV - AXIS M5526-E", { brand_text := some "AXIS" }),
  ("CCTV - Cisco MV93X",
    { brand_text := some "CISCO", img_scale_ratio := some (140/100),
      img_x_offset := some (-2/10), img_y_offset := some (-2/10) }),
  ("SEN - Meraki MT15", { brand_text := some "MERAKI" }),
  ("SEN - Meraki MT40", { brand_text := some "MERAKI" }),
  ("PWR - EcoFlow Battery", { brand_text := some "ECOFLOW" }),
  ("PWR - EcoFlow Solar Panel", { brand_text := some "ECOFLOW" }),
  ("PWR - Liebert UPS", { brand_text := some "LIEBERT" }),
  ("HL - Emergency Announce System", { model_text_override := some "EAS" }),
  ("HL - General Internet",
    { model_text_override := some "GENERAL\nINTERNET" }),
  ("HL - LC SM", { brand_text := some "FIBER" }),
  ("HL - SC SM", { brand_text := some "FIBER" }),
  ("HL - ST SM", { brand_text := some "FIBER" })]

/-- `ICON_IMAGE_PATHS`: deployment subject to gear-icon filename (relative to
`gearIcons/`); `none` is the Python `None` entry.  Verbatim from
`icon_config.py`. -/
def ICON_IMAGE_PATHS : List (String × Option String) := [
  ("AP - Cisco MR36H", some "APs/AP - Cisco MR36H.png"),
  ("AP - Cisco 9120", some "APs/AP - Cisco 9120.png"),
  ("AP - Cisco 9166I", some "APs/AP - Cisco 9166.png"),
  ("AP - Cisco 9166D", some "APs/AP - Cisco 9166.png"),
  ("AP - Cisco MR78", some "APs/AP - Cisco MR78.png"),
  ("AP - Cisco Marlin 4", some "APs/AP - Cisco Marlin 4.png"),
  ("AP - Cisco DB10", some "APs/AP - DB10.png"),
  ("SW - Cisco Micro 4P", some "Switches/Cisco Micro 4-P.png"),
  ("SW - Cisco 9200 12P", some "Switches/Cisco 9200 12-P.png"),
  ("SW - IDF Cisco 9300 24X", some "Switches/IDF.png"),
  ("DIST - Mini NOC", some "Switches/Mini NOC.png"),
  ("DIST - Micro NOC", some "Switches/Mini NOC.png"),
  ("DIST - Standard NOC", some "Switches/NOC.png"),
  ("DIST - Pelican NOC", some "Switches/NOC.png"),
  ("DIST - MikroTik Hex", some "Switches/MikroTik Hex.png"),
  ("DIST - Starlink", some "Switches/Starlink.png"),
  ("DIST - Cisco MX", some "Switches/Cisco MX.png"),
  ("DIST - Fortinet FortiGate", some "Switches/Fortinet FortiGate.png"),
  ("DIST - Mega NOC", some "Switches/NOC.png"),
  ("SW - 1G 60W PoE Extender", some "Switches/1x4 PoE Extender.png"),
  ("SW - 1G PoE+ Injectors", some "Switches/48V PoE Injector.png"),
  ("SW - 1G PoE+ Media Converter", some "Switches/Media Converter.png"),
  ("SW - Cisco 9300 12X36M", some "Switches/Cisco 9300 24-P.png"),
  ("SW - Cisco 9300X 24X", some "Switches/Cisco 9300 24-P.png"),
  ("SW - Cisco 9300X 24Y", some "Switches/Cisco 9300 24-P.png"),
  ("SW - Cisco 9500 48Y4C", some "Switches/Cisco 9500 48-P.png"),
  ("SW - Fortinet 108F 8P", some "Switches/Fortinet 108F 8-P.png"),
  ("SW - IDF Cisco 9300 12X36M", some "Switches/IDF.png"),
  ("SW - IDF Cisco 9300X 24X", some "Switches/IDF.png"),
  ("SW - IDF Cisco 9300X 24Y", some "Switches/IDF.png"),
  ("SW - IDF Cisco 9500 48Y4C", some "Switches/IDF.png"),
  ("SW - Raspberry Pi", some "Switches/Raspberry Pi.png"),
  ("P2P - Ubiquiti NanoBeam", some "P2Ps/P2P - Ubiquiti NanoBeam.png"),
  ("P2P - Ubiquiti LiteAP", some "P2Ps/P2P - Ubiquiti LiteAP AC.png"),
  ("P2P - Ubiquiti GigaBeam", some "P2Ps/P2P - Ubiquiti GigaBeam.png"),
  ("P2P - Ubiquiti GigaBeam LR", some "P2Ps/P2P - Ubiquiti GigaBeam LR.png"),
  ("P2P - Ubiquiti Wave AP Micro", some "P2Ps/P2P - Ubiquiti Wave AP Micro.png"),
  ("P2P - Ubiquiti Wave Nano", some "P2Ps/P2P - Ubiquiti Wave Nano.png"),
  ("P2P - Ubiquiti Wave Pico", some "P2Ps/P2P - Ubiquiti Wave Pico.png"),
  ("VOIP - Yealink T29G", some "Misc/Yealink T29G.png"),
  ("VOIP - Yealink CP965", some "Misc/Yealink P965.png"),
  ("CCTV - AXIS P5655-E", some "Misc/AXIS P5655-E.png"),
  ("CCTV - AXIS S9302", some "Misc/AXIS S9302 Workstation.png"),
  ("CCTV - AXIS M5526-E", some "Misc/AXIS M5526-E.png"),
  ("CCTV - Cisco MV93X", some "Misc/MV93X.png"),
  ("SEN - Meraki MT15", some "Misc/Meraki MT15.png"),
  ("SEN - Meraki MT40", some "Misc/Meraki MT40.png"),
  ("EAS - Command Unit", some "Misc/Emergency Announce Command Unit.png"),
  ("EAS - Laptop", some "Misc/EAS Laptop.png"),
  ("EAS - Trigger Box", some "Misc/Emergency Announce Trigger Box.png"),
  ("IPTV - BrightSign XT1144", some "Misc/Brightsign XT1144.png"),
  ("HL - Artist", some "Hardlines/CAT6 Cable.png"),
  ("HL - Production", some "Hardlines/CAT6 Cable.png"),
  ("HL - PoS", some "Hardlines/CAT6 Cable.png"),
  ("HL - Access Control", some "Hardlines/CAT6 Cable.png"),
  ("HL - Sponsor", some "Hardlines/CAT6 Cable.png"),
  ("HL - General Internet", some "Hardlines/CAT6 Cable.png"),
  ("HL - Audio", some "Hardlines/CAT6 Cable.png"),
  ("HL - Emergency Announce System", some "Hardlines/CAT6 Cable.png"),
  ("HL - WAN", some "Hardlines/CAT6 Cable.png"),
  ("HL -", some "Hardlines/CAT6 Cable.png"),
  ("HL - CCTV", some "Hardlines/CAT6 Cable.png"),
  ("HL - Clair", some "Hardlines/CAT6 Cable.png"),
  ("HL - IPTV", some "Hardlines/CAT6 Cable.png"),
  ("HL - Lighting", some "Hardlines/CAT6 Cable.png"),
  ("HL - Media", some "Hardlines/CAT6 Cable.png"),
  ("HL - Radios", some "Hardlines/CAT6 Cable.png"),
  ("HL - Streaming", some "Hardlines/CAT6 Cable.png"),
  ("HL - Video", some "Hardlines/CAT6 Cable.png"),
  ("HL - LC SM", some "Hardlines/LC SM.png"),
  ("HL - SC SM", some "Hardlines/SC SM.png"),
  ("HL - ST SM", some "Hardlines/ST SM.png"),
  ("FIBER", none),
  ("INFRA - Fiber Patch Panel", none),
  ("BOX - Dri Box", some "Misc/Dri Box.png"),
  ("BOX - Lock Box", some "Misc/Lock Box.png"),
  ("BOX - Patch Box", some "Misc/Patch Box.png"),
  ("BOX - Zarges Box", some "Misc/Zarges Junction Box.png"),
  ("BOX - Zarges XL Box", some "Misc/Zarges XL Junction Box.png"),
  ("PWR - EcoFlow Battery", some "Misc/EcoFlow Battery.png"),
  ("PWR - EcoFlow Solar Panel", some "Misc/EcoFlow Solar Panel.png"),
  ("PWR - Liebert UPS", some "Misc/Liebert UPS.png"),
  ("PWR - Pinty Battery", some "Misc/Pinty Battery.png"),
  ("PWR - Quad Box", some "Misc/Quad Box.png"),
  ("INFRA - Conduit", some "Misc/Conduit.png"),
  ("INFRA - Conduit Well", some "Misc/Conduit Well.png"),
  ("MISC - Bike Rack", some "Misc/Bike Rack.png")]

/-- The Python-side merge of `get_icon_config` (category defaults, per-icon
overrides, image path and category), reached when the JSON override store has
no (non-empty) entry for the subject.  `{}` is returned for subjects without
a category mapping. -/
def getIconConfigPython (subject : String) : IconConfig :=
  match alookup ICON_CATEGORIES subject with
  | none => emptyIconConfig
  | some category =>
      let config := (alookup CATEGORY_DEFAULTS category).getD emptyIconConfig
      let config := updateCfg config ((alookup ICON_OVERRIDES subject).getD emptyIconConfig)
      { config with
          image_path := some ((alookup ICON_IMAGE_PATHS subject).getD none),
          category := some category }

/-- `get_icon_config(subject)`: the JSON override store is consulted first
(`IconOverrideStore.get_icon`); a truthy (non-empty) stored dict is returned
directly, otherwise the Python merge applies.  The store contents are a
parameter (`none` models a missing key in the JSON file). -/
def getIconConfig (store : String → Option IconConfig) (subject : String) :
    IconConfig :=
  match store subject with
  | some jsonConfig =>
      if jsonConfig ≠ emptyIconConfig then jsonConfig
      else getIconConfigPython subject
  | none => getIconConfigPython subject

/-- Model of the Python substring test `sub in s`. -/
def pyContains (s sub : String) : Bool :=
  decide (sub.toList <:+: s.toList)

/-- The brand list of `get_model_text`, in source order. -/
def MODEL_BRAND_PREFIXES : List String :=
  ["Cisco ", "Ubiquiti ", "Axis ", "Yealink ", "BrightSign ",
   "Fortinet ", "Meraki ", "EcoFlow ", "Liebert ", "Netgear ", "Netonix "]

/-- The brand-stripping loop of `get_model_text`: the first matching brand
word is removed from the front of the model part. -/
def stripBrandWord (modelPart : String) : String :=
  match MODEL_BRAND_PREFIXES.find? (fun b => b.toList.isPrefixOf modelPart.toList) with
  | some b => String.mk (modelPart.toList.drop b.toList.length)
  | none => modelPart

/-- `get_model_text(subject)`: extract the displayed model text from a
deployment subject. -/
def getModelText (subject : String) : String :=
  if pyContains subject " - " then
    let parts := subject.splitOn " - "
    if parts.length ≥ 2 then stripBrandWord ((parts.getLast?).getD subject)
    else subject
  else subject

/-- The numeric and color fields that every `CATEGORY_DEFAULTS` entry
provides and that the renderer consumes; the spec's "every numeric/color
field has a concrete value after merge" is formalised as all of these being
present.  (Fields the renderer reads with an inline default, such as
`img_x_offset`, are not category-default fields and are excluded; so is
`id_text_color`, whose stored value is the Python `None`.) -/
def numericColorComplete (c : IconConfig) : Prop :=
  c.circle_color.isSome ∧ c.circle_border_width.isSome ∧
  c.circle_border_color.isSome ∧ c.id_box_height.isSome ∧
  c.id_box_width_ratio.isSome ∧ c.id_box_border_width.isSome ∧
  c.id_font_size.isSome ∧ c.img_scale_ratio.isSome ∧
  c.brand_font_size.isSome ∧ c.brand_y_offset.isSome ∧
  c.brand_x_offset.isSome ∧ c.model_font_size.isSome ∧
  c.model_y_offset.isSome ∧ c.model_x_offset.isSome ∧
  c.text_color.isSome

instance (c : IconConfig) : Decidable (numericColorComplete c) := by
  unfold numericColorComplete
  infer_instance

/-! ## Icon appearance synthesizer, compound mode (`icon_renderer.py`) -/

/-- Model of Python `str.upper()` (for the subjects at hand all characters
are ASCII). -/
def pyUpper (s : String) : String := String.mk (s.toList.map Char.toUpper)

/-- `COMPOUND_RENDER_SCALE` (1.12): canonical 25x30 space to page points. -/
def COMPOUND_RENDER_SCALE : ℚ := 112/100

/-- Canonical design-space width (`CANON_W`). -/
def CANON_W : ℚ := 25

/-- Canonical design-space height (`CANON_H`). -/
def CANON_H : ℚ := 30

/-- The `extra_props` dict attached to each compound component.  The `/DA`
string of the source interpolates a text color and font size; it is modelled
by that pair rather than by the formatted string.  `/BS` is the dict
`{"W": w}`, modelled by its `W` entry; `/RD` is a single rounding value that
`_create_compound_annotation_group` expands to a 4-array. -/
structure ExtraProps where
  da : Option (Color × ℚ) := none
  contents : Option String := none
  ic : Option (List ℚ) := none
  c : Option (List ℚ) := none
  bsW : Option ℚ := none
  rd : Option ℚ := none
deriving DecidableEq, Repr

/-- One compound component record produced by `render_compound_icon`. -/
structure Component where
  role : String
  subtype : String
  rect : List ℚ
  apRef : Nat
  extra : ExtraProps
deriving DecidableEq, Repr

/-- The dict returned by `_compute_component_rects` (the `image` key is only
present when the icon has an embedded image). -/
structure ComponentRects where
  container : List ℚ
  idBox : List ℚ
  idText : List ℚ
  circle : List ℚ
  image : Option (List ℚ)
  modelText : List ℚ
  brandText : List ℚ
deriving DecidableEq, Repr

/-- `_compute_component_rects`: absolute page rectangles for every compound
component, computed in the canonical 25x30 space and scaled by
`COMPOUND_RENDER_SCALE` around the icon center. -/
def computeComponentRects (cx cy : ℚ) (config : IconConfig)
    (imgWidth imgHeight : Nat) : ComponentRects :=
  let scale := COMPOUND_RENDER_SCALE
  let halfW := CANON_W * scale / 2
  let halfH := CANON_H * scale / 2
  let ox := cx - halfW
  let oy := cy - halfH
  let toPageRect : ℚ → ℚ → ℚ → ℚ → List ℚ := fun cx1 cy1 cw ch =>
    [ox + cx1 * scale, oy + cy1 * scale,
     ox + (cx1 + cw) * scale, oy + (cy1 + ch) * scale]
  let idBoxHeight := config.id_box_height.getD (23/10)
  let idBoxWidthRatio := config.id_box_width_ratio.getD (41/100)
  let idBoxYOffset := config.id_box_y_offset.getD 0
  let imgScaleRatio := config.img_scale_ratio.getD (70/100)
  let canonCx := CANON_W / 2
  let idBoxWidth := CANON_W * idBoxWidthRatio
  let idBoxX1 := canonCx - idBoxWidth / 2
  let idBoxY1 := CANON_H - idBoxHeight + idBoxYOffset
  let circleTop := idBoxY1 + 2
  let circleAreaHeight := circleTop
  let radius := min CANON_W circleAreaHeight / 2 - 3/10
  let canonCy := circleTop - radius
  let image :=
    if imgWidth > 0 ∧ imgHeight > 0 then
      let imgScale := radius * imgScaleRatio / ((max imgWidth imgHeight : Nat) : ℚ)
      let imgDrawW := (imgWidth : ℚ) * imgScale
      let imgDrawH := (imgHeight : ℚ) * imgScale
      let imgXOff := config.img_x_offset.getD 0
      let imgYOff := config.img_y_offset.getD 0
      let imgCx := canonCx - imgDrawW / 2 + imgXOff
      let imgCy := canonCy - imgDrawH / 2 + imgYOff
      some (toPageRect imgCx imgCy imgDrawW imgDrawH)
    else none
  let modelYOffset := config.model_y_offset.getD (25/10)
  let modelFontSize := config.model_font_size.getD (22/10)
  let modelTextY := canonCy - radius + modelYOffset - modelFontSize * 2
  let brandYOffset := config.brand_y_offset.getD (-32/10)
  let brandFontSize := config.brand_font_size.getD (18/10)
  let brandTextY := canonCy + radius + brandYOffset - brandFontSize
  { container := toPageRect 0 0 CANON_W CANON_H,
    idBox := toPageRect idBoxX1 idBoxY1 idBoxWidth idBoxHeight,
    idText := toPageRect 0 (idBoxY1 - 2) CANON_W (idBoxHeight + 4),
    circle := toPageRect (canonCx - radius) (canonCy - radius)
      (2 * radius) (2 * radius),
    image := image,
    modelText := toPageRect 0 (max modelTextY 0) CANON_W (modelFontSize * 5),
    brandText := toPageRect 0 brandTextY CANON_W (brandFontSize * 4) }

/-- The image-loading prologue of `render_compound_icon`: when the config has
a truthy `image_path`, no `no_image` flag, and the gear-icon file exists, the
PNG is loaded (`imgDims` models the PIL image size) and an image XObject is
registered with the writer (one object id).  Returns
`(has_image, img_width, img_height, next object id)`. -/
def loadImageForCompound (config : IconConfig) (fileExists : String → Bool)
    (imgDims : String → Nat × Nat) (gearDir : String) (objId : Nat) :
    Bool × Nat × Nat × Nat :=
  match config.image_path.getD none with
  | some p =>
      if p ≠ "" ∧ config.no_image.getD false = false then
        if fileExists (gearDir ++ "/" ++ p) then
          (true, (imgDims (gearDir ++ "/" ++ p)).1,
           (imgDims (gearDir ++ "/" ++ p)).2, objId + 1)
        else (false, 0, 0, objId)
      else (false, 0, 0, objId)
  | none => (false, 0, 0, objId)

/-- `IconRenderer.render_compound_icon`: decompose one deployment icon into
3-7 components, each with its own absolute rectangle and its own appearance
stream.  Appearance-stream payloads are beyond the claims; each
`_render_*_ap` call is modelled by the allocation of the next writer object
id.  Returns `none` exactly when the resolved config is the empty dict. -/
def renderCompoundIcon (store : String → Option IconConfig)
    (fileExists : String → Bool) (imgDims : String → Nat × Nat)
    (gearDir : String) (objId : Nat) (subject : String) (center : ℚ × ℚ)
    (idLabel : String) : Option (List Component × Nat) :=
  let config := getIconConfig store subject
  if config = emptyIconConfig then none
  else
    let cx := center.1
    let cy := center.2
    let li := loadImageForCompound config fileExists imgDims gearDir objId
    let hasImage := li.1
    let imgWidth := li.2.1
    let imgHeight := li.2.2.1
    let objId1 := li.2.2.2
    let modelText0 :=
      match config.model_text_override with
      | some t => if t ≠ "" then t else getModelText subject
      | none => getModelText subject
    let modelText :=
      if config.model_uppercase.getD false then pyUpper modelText0 else modelText0
    let brandText := config.brand_text.getD ""
    let circleColor := config.circle_color.getD (22/100, 34/100, 65/100)
    let circleBorderColor := config.circle_border_color.getD (0, 0, 0)
    let circleBorderWidth := config.circle_border_width.getD (75/100)
    let textColor := config.text_color.getD (1, 1, 1)
    let idTextColor := (config.id_text_color.getD none).getD circleColor
    let idFontSize := config.id_font_size.getD (39/10)
    let idBoxBorderWidth := config.id_box_border_width.getD (35/100)
    let noIdBox := config.no_id_box.getD false
    let modelFontSize := config.model_font_size.getD (22/10)
    let brandFontSize := config.brand_font_size.getD (18/10)
    let rects := computeComponentRects cx cy config imgWidth imgHeight
    let rootComp : Component :=
      { role := "root_id_text", subtype := "/FreeText", rect := rects.idText,
        apRef := objId1,
        extra := { da := some (idTextColor, idFontSize),
                   contents := some (if noIdBox then "" else idLabel),
                   c := some [], bsW := some 0 } }
    let objId2 := objId1 + 1
    let boxPart : List Component × Nat :=
      if noIdBox then ([], objId2)
      else
        ([{ role := "id_box_border", subtype := "/Square", rect := rects.idBox,
            apRef := objId2,
            extra := { ic := some [1, 1, 1], c := some [0, 0, 0],
                       bsW := some idBoxBorderWidth,
                       rd := some (idBoxBorderWidth / 2) } }],
         objId2 + 1)
    let objId3 := boxPart.2
    let containerComp : Component :=
      { role := "container", subtype := "/FreeText", rect := rects.container,
        apRef := objId3,
        extra := { da := some ((0, 0, 0), 1), contents := some "",
                   c := some [], bsW := some 0 } }
    let circleComp : Component :=
      { role := "circle", subtype := "/Circle", rect := rects.circle,
        apRef := objId3 + 1,
        extra := { ic := some [circleColor.1, circleColor.2.1, circleColor.2.2],
                   c := some [circleBorderColor.1, circleBorderColor.2.1,
                              circleBorderColor.2.2],
                   bsW := some circleBorderWidth,
                   rd := some (circleBorderWidth / 2) } }
    let objId4 := objId3 + 2
    -- the source indexes `rects["image"]` when an image was loaded; PIL
    -- image sizes are at least 1x1, so the rect is present whenever
    -- `has_image` holds and the component is only added in that case
    let imgPart : List Component × Nat :=
      if hasImage ∧ (rects.image).isSome then
        ([{ role := "image", subtype := "/Square",
            rect := (rects.image).getD [], apRef := objId4,
            extra := { c := some [1, 0, 0], bsW := some 0 } }], objId4 + 1)
      else ([], objId4)
    let modelPart : List Component × Nat :=
      if modelText ≠ "" then
        ([{ role := "model_text", subtype := "/FreeText",
            rect := rects.modelText, apRef := imgPart.2,
            extra := { da := some (textColor, modelFontSize),
                       contents := some modelText,
                       c := some [], bsW := some 0 } }], imgPart.2 + 1)
      else ([], imgPart.2)
    let brandPart : List Component × Nat :=
      if brandText ≠ "" then
        ([{ role := "brand_text", subtype := "/FreeText",
            rect := rects.brandText, apRef := modelPart.2,
            extra := { da := some (textColor, brandFontSize),
                       contents := some brandText,
                       c := some [], bsW := some 0 } }], modelPart.2 + 1)
      else ([], modelPart.2)
    some ([rootComp] ++ boxPart.1 ++ [containerComp, circleComp]
            ++ imgPart.1 ++ modelPart.1 ++ brandPart.1,
          brandPart.2)

/-- `IconRenderer.can_render`: config present, not `no_image`, truthy image
path, and the gear-icon file exists. -/
def canRender (store : String → Option IconConfig) (fileExists : String → Bool)
    (gearDir : String) (subject : String) : Bool :=
  let config := getIconConfig store subject
  if config = emptyIconConfig then false
  else if config.no_image.getD false then false
  else
    match config.image_path.getD none with
    | some p => if p ≠ "" then fileExists (gearDir ++ "/" ++ p) else false
    | none => false

/-- `IconRenderer.render_icon` (combined mode): returns `none` when the
config is empty, the image path is falsy, or the image file is missing;
otherwise registers the image XObject and the combined appearance stream
(two object ids; stream payloads are beyond the claims) and returns the
appearance reference. -/
def renderIconRef (store : String → Option IconConfig)
    (fileExists : String → Bool) (gearDir : String) (objId : Nat)
    (subject : String) (_rect : List ℚ) (_idLabel : String) :
    Option Nat × Nat :=
  let config := getIconConfig store subject
  if config = emptyIconConfig then (none, objId)
  else
    match config.image_path.getD none with
    | none => (none, objId)
    | some p =>
        if p = "" then (none, objId)
        else if fileExists (gearDir ++ "/" ++ p) then (some (objId + 1), objId + 2)
        else (none, objId)

/-! ## Compound annotation group builder (`annotation_replacer.py`) -/

/-- One annotation dictionary as assembled by `AnnotationReplacer`.  Fields
mirror the PDF keys that the source writes (`/Type`, `/Subtype`, `/Rect`,
`/Subj`, `/F`, `/NM`, `/M`, `/CreationDate`, `/T`, `/GroupNesting`, `/OC`,
`/AP` (the `/N` reference), `/DA`, `/Contents`, `/IC`, `/C`, `/BS` (its `W`),
`/RD`, `/Sequence`, `/IRT`); `none` models an absent key. -/
structure AnnotDict where
  typeName : String := "/Annot"
  subtype : String := ""
  rect : List ℚ := []
  subj : String := ""
  flags : Nat := 0
  nm : String := ""
  m : String := ""
  creationDate : String := ""
  t : String := ""
  groupNesting : Option (List String) := none
  oc : Option Nat := none
  ap : Nat := 0
  da : Option (Color × ℚ) := none
  contents : Option String := none
  ic : Option (List ℚ) := none
  c : Option (List ℚ) := none
  bs : Option ℚ := none
  rd : Option (List ℚ) := none
  sequence : Option (String × Nat) := none
  irt : Option Nat := none
deriving DecidableEq, Repr

/-- The per-component dictionary assembly shared by every iteration of the
loop in `_create_compound_annotation_group` (before the root/child split). -/
def mkCompAnnot (deploymentSubject now : String) (groupNesting : List String)
    (nm : String) (ocgRef : Option Nat) (comp : Component) : AnnotDict :=
  { typeName := "/Annot", subtype := comp.subtype, rect := comp.rect,
    subj := deploymentSubject, flags := 4, nm := nm, m := now,
    creationDate := now, t := "PDF Converter",
    groupNesting := some groupNesting, oc := ocgRef, ap := comp.apRef,
    da := comp.extra.da, contents := comp.extra.contents,
    ic := comp.extra.ic, c := comp.extra.c, bs := comp.extra.bsW,
    rd := comp.extra.rd.map (fun v => [v, v, v, v]),
    sequence := none, irt := none }

/-- The `i >= 1` iterations of the loop in
`_create_compound_annotation_group`: each child is registered with the
writer (consecutive object ids) and carries `/IRT` pointing at the root. -/
def compoundChildAnnots (deploymentSubject now : String)
    (groupNesting : List String) (nms : List String) (ocgRef : Option Nat)
    (rootRef : Nat) : Nat → Nat → List Component → List (Nat × AnnotDict)
  | _, _, [] => []
  | i, objId, comp :: rest =>
      (objId,
        { mkCompAnnot deploymentSubject now groupNesting (nms.getD i "")
            ocgRef comp with irt := some rootRef })
        :: compoundChildAnnots deploymentSubject now groupNesting nms ocgRef
            rootRef (i + 1) (objId + 1) rest

/-- `_create_compound_annotation_group`: unique `/NM` names are drawn from
the uuid stream, the shared `/GroupNesting` array is
`[subject, "/NM1", ..., "/NMn"]`, the first component becomes the root
(`/Sequence` with the run id and the run-global counter, no `/IRT`), every
later component carries `/IRT` to the root's reference.  Returns the list of
`(writer reference, dict)` pairs, the incremented sequence counter and the
next writer object id. -/
def createCompoundAnnotationGroup (uuidAt : Nat → String)
    (now seqIid : String) (seqCounter objId : Nat)
    (components : List Component) (deploymentSubject : String)
    (ocgRef : Option Nat) : List (Nat × AnnotDict) × Nat × Nat :=
  let nms := (List.range components.length).map uuidAt
  let groupNesting := deploymentSubject :: nms.map (fun nm => "/" ++ nm)
  match components with
  | [] => ([], seqCounter, objId)
  | c0 :: rest =>
      let root :=
        { mkCompAnnot deploymentSubject now groupNesting (nms.getD 0 "")
            ocgRef c0 with sequence := some (seqIid, seqCounter) }
      let children :=
        compoundChildAnnots deploymentSubject now groupNesting nms ocgRef
          objId 1 (objId + 1) rest
      ((objId, root) :: children, seqCounter + 1, objId + 1 + rest.length)

/-! ## Annotation conversion engine (`annotation_replacer.py`) -/

/-- `DEFAULT_FILL_COLOR` (navy blue). -/
def DEFAULT_FILL_COLOR : Color := (22/100, 34/100, 65/100)

/-- `DEFAULT_STROKE_COLOR` (black). -/
def DEFAULT_STROKE_COLOR : Color := (0, 0, 0)

/-- `DEFAULT_BORDER_WIDTH` (0.5). -/
def DEFAULT_BORDER_WIDTH : ℚ := 1/2

/-- `STANDARD_ICON_SIZE` (14.6 points), the fallback single-annotation rect
size. -/
def STANDARD_ICON_SIZE : ℚ := 146/10

/-- An entry of the appearance extractor's table (`self.appearances`):
fill/stroke colors and opacity for one subject. -/
structure AppearData where
  fill : Option Color := none
  stroke : Option Color := none
  opacity : Option ℚ := none
deriving DecidableEq, Repr

/-- The `IconData` record of `models/mapping.py` as consumed by the engine
(the engine only passes it through `_get_colors_for_annotation`, whose BTX
branch is a no-op). -/
structure IconData where
  subject : String
  category : String
deriving DecidableEq, Repr

/-- One annotation read from the input page: `/Subj` (empty string when
absent), `/Subtype`, whether `/IRT` is set, the `/Rect` entries, and a flag
modelling a runtime exception thrown while rendering/creating the
replacement objects for this entry (`except` block of the per-annotation
loop; the reads preceding the conversion stage are pure field accesses that
cannot fail on structurally well-formed records). -/
structure SrcAnnot where
  subj : String := ""
  subtype : String := ""
  hasIRT : Bool := false
  rect : List ℚ := []
  raisesError : Bool := false
deriving DecidableEq, Repr

/-- The external collaborators and ambient state of one conversion run,
mirroring `AnnotationReplacer.__init__` and the IO the services perform:
the loaded mapping table, the JSON override store contents, the filesystem,
PIL image sizes, optional renderer/layer-manager/appearance-extractor, the
BTX deployment table, the uuid stream, the timestamp and whether the input
document exists. -/
structure ConvEnv where
  mapping : String → Option String
  store : String → Option IconConfig
  fileExists : String → Bool
  imgDims : String → Nat × Nat
  gearDir : String
  hasRenderer : Bool
  hasLayerMgr : Bool
  ocgLookup : String → Option Nat
  hasAppExtractor : Bool
  appearance : String → Option AppearData
  btxDeployment : String → Option IconData
  uuid : Nat → String
  now : String
  inputExists : Bool

/-- `_get_colors_for_annotation`: appearance-extractor colors first, BTX
color hints are a documented no-op, defaults last.  Returns
`(fill, stroke, opacity)`. -/
def getColorsForAnnot (env : ConvEnv) (deploymentSubject : String)
    (_iconData : Option IconData) : Color × Color × ℚ :=
  if env.hasAppExtractor ∧ (env.appearance deploymentSubject).isSome then
    match env.appearance deploymentSubject with
    | some d =>
        (d.fill.getD DEFAULT_FILL_COLOR, d.stroke.getD DEFAULT_STROKE_COLOR,
         d.opacity.getD 1)
    | none => (DEFAULT_FILL_COLOR, DEFAULT_STROKE_COLOR, 1)
  else (DEFAULT_FILL_COLOR, DEFAULT_STROKE_COLOR, 1)

/-- `_create_simple_appearance`: builds a plain circle/rectangle appearance
stream and registers it with the writer.  The stream payload is beyond the
claims; the allocation returns `(reference, next object id)`. -/
def createSimpleAppearance (objId : Nat) (_rect : List ℚ)
    (_fillColor _strokeColor : Color) (_annotationType : String) : Nat × Nat :=
  (objId, objId + 1)

/-- `AnnotationReplacer._render_rich_icon`: `None` without a renderer or when
`can_render` fails, otherwise `render_icon`. -/
def renderRichIcon (hasRenderer : Bool) (store : String → Option IconConfig)
    (fileExists : String → Bool) (gearDir : String) (objId : Nat)
    (subject : String) (rect : List ℚ) (idLabel : String) : Option Nat × Nat :=
  if ¬ hasRenderer then (none, objId)
  else if ¬ canRender store fileExists gearDir subject then (none, objId)
  else renderIconRef store fileExists gearDir objId subject rect idLabel

/-- `_create_deployment_annotation_dict`: the single fallback annotation.
Note that `/IC`, `/C` and `/BS` are set unconditionally. -/
def createDeploymentAnnotationDict (nm now : String) (rect : List ℚ)
    (deploymentSubject : String) (appearanceRef : Nat)
    (fillColor strokeColor : Color) (annotationType : String)
    (ocgRef : Option Nat) : AnnotDict :=
  { typeName := "/Annot", subtype := annotationType, rect := rect,
    subj := deploymentSubject, flags := 4, oc := ocgRef,
    ic := some [fillColor.1, fillColor.2.1, fillColor.2.2],
    c := some [strokeColor.1, strokeColor.2.1, strokeColor.2.2],
    bs := some DEFAULT_BORDER_WIDTH,
    nm := nm, m := now, creationDate := now, t := "PDF Converter",
    rd := some [DEFAULT_BORDER_WIDTH / 2, DEFAULT_BORDER_WIDTH / 2,
                DEFAULT_BORDER_WIDTH / 2, DEFAULT_BORDER_WIDTH / 2],
    ap := appearanceRef, groupNesting := none, da := none, contents := none,
    sequence := none, irt := none }

/-- An entry of the rebuilt `/Annots` array: either the original reference
at input position `idx`, or a newly created annotation dictionary. -/
inductive PageEntry where
  | orig (idx : Nat)
  | new (d : AnnotDict)
deriving DecidableEq, Repr

/-- The loop state of the single-pass rebuild in `replace_annotations`:
the rebuilt array, the deleted/converted/skipped tallies, the identifier
assigner's counters, the run-global sequence counter, and the uuid/object-id
supplies. -/
structure LoopState where
  newAnnots : List PageEntry := []
  deleted : Nat := 0
  converted : Nat := 0
  skipped : Nat := 0
  skippedSubjects : List String := []
  counters : Counters := []
  seqCounter : Nat := 0
  uuidIdx : Nat := 0
  objId : Nat := 0

/-- The body of the per-annotation loop of `replace_annotations`
(classification into delete / preserve / drop-IRT-child / skip / convert,
with the compound group and the single-annotation fallback). -/
def processOne (env : ConvEnv) (seqIid : String) (idx : Nat) (st : LoopState)
    (a : SrcAnnot) : LoopState :=
  let bidSubject := a.subj
  let annotSubtype := a.subtype
  if bidSubject ≠ "" ∧
      (pyContains bidSubject "Legend" ∨ pyContains bidSubject "CLAIR GEAR LIST") then
    { st with deleted := st.deleted + 1 }
  else if bidSubject = "" then
    { st with newAnnots := st.newAnnots ++ [.orig idx] }
  else
    let deploymentSubject := env.mapping bidSubject
    if a.hasIRT ∧ deploymentSubject.isSome then
      st
    else if ¬ (annotSubtype = "/Circle" ∨ annotSubtype = "/Square") then
      { st with newAnnots := st.newAnnots ++ [.orig idx] }
    else
      match deploymentSubject with
      | none =>
          { st with skipped := st.skipped + 1,
                    skippedSubjects := st.skippedSubjects ++ [bidSubject],
                    newAnnots := st.newAnnots ++ [.orig idx] }
      | some depSubj =>
          if a.rect.length ≠ 4 then
            { st with skipped := st.skipped + 1,
                      skippedSubjects := st.skippedSubjects ++ [bidSubject],
                      newAnnots := st.newAnnots ++ [.orig idx] }
          else
            let cx := (a.rect.getD 0 0 + a.rect.getD 2 0) / 2
            let cy := (a.rect.getD 1 0 + a.rect.getD 3 0) / 2
            let idDraw := getNextId st.counters depSubj
            let idLabel := idDraw.1.getD ""
            let ocgRef := if env.hasLayerMgr then env.ocgLookup depSubj else none
            if a.raisesError then
              { st with counters := idDraw.2,
                        skipped := st.skipped + 1,
                        skippedSubjects := st.skippedSubjects
                          ++ ["(error at index " ++ toString idx ++ ")"],
                        newAnnots := st.newAnnots ++ [.orig idx] }
            else
              let comps :=
                if env.hasRenderer then
                  renderCompoundIcon env.store env.fileExists env.imgDims
                    env.gearDir st.objId depSubj (cx, cy) idLabel
                else none
              match comps with
              | some (c0 :: cs, objId1) =>
                  let grp := createCompoundAnnotationGroup
                    (fun i => env.uuid (st.uuidIdx + i)) env.now seqIid
                    st.seqCounter objId1 (c0 :: cs) depSubj ocgRef
                  { st with counters := idDraw.2,
                            newAnnots := st.newAnnots
                              ++ grp.1.map (fun pr => .new pr.2),
                            converted := st.converted + 1,
                            seqCounter := grp.2.1,
                            uuidIdx := st.uuidIdx + (c0 :: cs).length,
                            objId := grp.2.2 }
              | _ =>
                  let half := STANDARD_ICON_SIZE / 2
                  let rect := [cx - half, cy - half, cx + half, cy + half]
                  let iconData := env.btxDeployment depSubj
                  let colors := getColorsForAnnot env depSubj iconData
                  let fillColor := colors.1
                  let strokeColor := colors.2.1
                  let richDraw := renderRichIcon env.hasRenderer env.store
                    env.fileExists env.gearDir st.objId depSubj rect idLabel
                  let apDraw :=
                    match richDraw.1 with
                    | some r => (r, richDraw.2)
                    | none => createSimpleAppearance richDraw.2 rect fillColor
                        strokeColor annotSubtype
                  let nm := env.uuid st.uuidIdx
                  let d := createDeploymentAnnotationDict nm env.now rect
                    depSubj apDraw.1 fillColor strokeColor annotSubtype ocgRef
                  { st with counters := idDraw.2,
                            newAnnots := st.newAnnots ++ [.new d],
                            converted := st.converted + 1,
                            uuidIdx := st.uuidIdx + 1,
                            objId := apDraw.2 + 1 }

/-- The per-annotation loop over the page's annotation array
(`for idx, annot_ref in enumerate(annots)`). -/
def processGo (env : ConvEnv) (seqIid : String) :
    Nat → LoopState → List SrcAnnot → LoopState
  | _, st, [] => st
  | idx, st, a :: rest =>
      processGo env seqIid (idx + 1) (processOne env seqIid idx st a) rest

/-- `AnnotationReplacer.replace_annotations`: reset the assigner and run
counters, draw the run id, return `(0, 0, [])` early when the input document
does not exist, otherwise rebuild the (single, per the spec's scope) page's
annotation array in one pass and return the result tuple.  The result pairs
the `(converted, skipped, skipped_subjects)` tuple with the rebuilt array;
the `Except` layer records that the source has no raising path here. -/
def replaceAnnotations (env : ConvEnv) (annots : List SrcAnnot) :
    Except String ((Nat × Nat × List String) × List PageEntry) :=
  let seqIid := env.uuid 0
  if ¬ env.inputExists then .ok ((0, 0, []), [])
  else
    let final := processGo env seqIid 0 { uuidIdx := 1 } annots
    .ok ((final.converted, final.skipped, final.skippedSubjects),
         final.newAnnots)

/-! ## Toolchest loader guard (`btx_loader.py`, `load_toolchest`) -/

/-- `_load_btx_directory` item intake: each tool item contributes an
extracted subject (or `none` when the `/Subj(...)` pattern was not found)
and the category from the file name; items without a subject are skipped and
duplicate subjects keep the first occurrence. -/
def loadBtxItems : List (String × IconData) → List (Option String × String) →
    List (String × IconData)
  | acc, [] => acc
  | acc, (none, _) :: rest => loadBtxItems acc rest
  | acc, (some subj, cat) :: rest =>
      if (alookup acc subj).isSome then loadBtxItems acc rest
      else loadBtxItems (acc ++ [(subj, { subject := subj, category := cat })]) rest

/-- `BTXReferenceLoader.load_toolchest`: raises `FileNotFoundError` when the
toolchest root directory does not exist (before any file is read), otherwise
loads the two icon directions (each direction silently skipped when its
subdirectory is missing).  XML parsing and raw-field decoding feed the
per-item subject/category pairs. -/
def loadToolchest (dirExists bidDirExists depDirExists : Bool)
    (bidItems depItems : List (Option String × String)) :
    Except String (List (String × IconData) × List (String × IconData)) :=
  if ¬ dirExists then .error "Toolchest directory not found"
  else
    let bid := if bidDirExists then loadBtxItems [] bidItems else []
    let dep := if depDirExists then loadBtxItems [] depItems else []
    .ok (bid, dep)

/-! ## Python string primitives used by the services -/

/-- Python whitespace for `str.strip()` (the ASCII set; the toolchest
payloads in the claims are ASCII). -/
def isPySpace (ch : Char) : Bool :=
  ch == ' ' || ch == Char.ofNat 9 || ch == Char.ofNat 10 ||
  ch == Char.ofNat 13 || ch == Char.ofNat 11 || ch == Char.ofNat 12

/-- Model of Python `str.strip()`. -/
def pyStrip (s : String) : String :=
  String.mk (((s.toList.dropWhile isPySpace).reverse.dropWhile isPySpace).reverse)

/-- Model of Python `str.lower()` (ASCII case folding). -/
def pyLower (s : String) : String := String.mk (s.toList.map Char.toLower)

/-- Model of Python `str.startswith`. -/
def pyStartsWith (s pre : String) : Bool := pre.toList.isPrefixOf s.toList

/-! ## Appearance reference extractor (`appearance_extractor.py`) -/

/-- One annotation of the reference document as seen by the extractor:
subject string, the PyMuPDF fill/stroke colors and the opacity. -/
structure RefAnnot where
  subject : String := ""
  fill : Option Color := none
  stroke : Option Color := none
  opacity : Option ℚ := none
deriving DecidableEq, Repr

/-- `_extract_from_page` over all pages: skip empty subjects, first
occurrence per subject wins, entries without any color data are dropped,
missing opacity defaults to 1. -/
def extractFromAnnots : List (String × AppearData) → List RefAnnot →
    List (String × AppearData)
  | acc, [] => acc
  | acc, a :: rest =>
      let subj := pyStrip a.subject
      if subj = "" then extractFromAnnots acc rest
      else if (alookup acc subj).isSome then extractFromAnnots acc rest
      else if a.fill = none ∧ a.stroke = none then extractFromAnnots acc rest
      else
        extractFromAnnots
          (acc ++ [(subj, { fill := a.fill, stroke := a.stroke,
                            opacity := some (a.opacity.getD 1) })]) rest

/-- `AppearanceExtractor.load_from_pdf`: raises `FileNotFoundError` when the
reference document is missing; opening an unreadable document raises a
PyMuPDF error; otherwise the per-annotation extraction runs and the count of
stored appearances is returned. -/
def loadFromPdf (fileExists openOk : Bool) (annots : List RefAnnot) :
    Except String Nat :=
  if ¬ fileExists then .error "Reference PDF not found"
  else if ¬ openOk then .error "cannot open document"
  else .ok (extractFromAnnots [] annots).length

/-! ## Toolchest compression/hex layer (`btx_loader.py`, `decode_hex_zlib`)

The decoder in the source delegates to `bytes.fromhex`, `zlib.decompress`
and `bytes.decode`; those library primitives are modelled below.  The zlib
model implements the RFC 1950 container with stored-type (uncompressed)
DEFLATE blocks and the Adler-32 trailer — the block type exercised by the
round-trip claims; Huffman-coded block types are outside the model and the
model decoder rejects them. -/

/-- UTF-8 encoding of one character (RFC 3629). -/
def utf8EncodeChar (ch : Char) : List Nat :=
  let n := ch.toNat
  if n < 128 then [n]
  else if n < 2048 then [192 + n / 64, 128 + n % 64]
  else if n < 65536 then [224 + n / 4096, 128 + n / 64 % 64, 128 + n % 64]
  else [240 + n / 262144, 128 + n / 4096 % 64, 128 + n / 64 % 64, 128 + n % 64]

/-- Model of Python `str.encode("utf-8")`. -/
def utf8Encode (s : String) : List Nat :=
  (s.toList.map utf8EncodeChar).flatten

/-- A UTF-8 continuation byte. -/
def isCont (b : Nat) : Bool := 128 ≤ b && b < 192

/-- Continuation of a two-byte UTF-8 sequence with lead byte `b`. -/
def utf8Step2 (b : Nat) : List Nat → Option (Nat × List Nat)
  | b2 :: rest2 =>
      if isCont b2 then some ((b - 192) * 64 + (b2 - 128), rest2) else none
  | [] => none

/-- Continuation of a three-byte UTF-8 sequence with lead byte `b`:
rejects overlong forms and surrogates. -/
def utf8Step3 (b : Nat) : List Nat → Option (Nat × List Nat)
  | b2 :: b3 :: rest3 =>
      if isCont b2 && isCont b3 then
        let n := (b - 224) * 4096 + (b2 - 128) * 64 + (b3 - 128)
        if n < 2048 || (55296 ≤ n && n < 57344) then none
        else some (n, rest3)
      else none
  | _ => none

/-- Continuation of a four-byte UTF-8 sequence with lead byte `b`:
rejects overlong forms and code points beyond U+10FFFF. -/
def utf8Step4 (b : Nat) : List Nat → Option (Nat × List Nat)
  | b2 :: b3 :: b4 :: rest4 =>
      if isCont b2 && isCont b3 && isCont b4 then
        let n := (b - 240) * 262144 + (b2 - 128) * 4096
                  + (b3 - 128) * 64 + (b4 - 128)
        if n < 65536 || 1114112 ≤ n then none
        else some (n, rest4)
      else none
  | _ => none

/-- Decode one UTF-8 code point: the code point and the remaining bytes.
Rejects stray continuation bytes and invalid lead bytes. -/
def utf8Step : List Nat → Option (Nat × List Nat)
  | [] => none
  | b :: rest =>
      if b < 128 then some (b, rest)
      else if b < 194 then none
      else if b < 224 then utf8Step2 b rest
      else if b < 240 then utf8Step3 b rest
      else if b < 245 then utf8Step4 b rest
      else none

/-- Fuel-indexed decoding loop; `utf8Step` consumes at least one byte per
code point, so fuel equal to the total byte count always suffices. -/
def utf8DecodeLoop : Nat → List Nat → Option (List Char)
  | _, [] => some []
  | 0, _ :: _ => none
  | fuel + 1, b :: rest =>
      match utf8Step (b :: rest) with
      | some (n, rest2) =>
          (utf8DecodeLoop fuel rest2).map (fun cs => Char.ofNat n :: cs)
      | none => none

/-- Strict UTF-8 decoding (model of Python `bytes.decode("utf-8")`):
rejects stray continuation bytes, overlong forms, surrogates, and
out-of-range code points. -/
def utf8DecodeGo (bs : List Nat) : Option (List Char) :=
  utf8DecodeLoop bs.length bs

/-- Model of Python `bytes.decode("latin-1")`, which never fails. -/
def latin1Decode (bs : List Nat) : List Char := bs.map Char.ofNat

/-- Lowercase hex digit for a nibble. -/
def hexDigitChar (n : Nat) : Char :=
  if n < 10 then Char.ofNat (48 + n) else Char.ofNat (87 + n)

/-- Lowercase hex encoding of a byte string (model of `bytes.hex()` /
the hex layer of the toolchest writer). -/
def bytesToHexList (bs : List Nat) : List Char :=
  (bs.map (fun b => [hexDigitChar (b / 16), hexDigitChar (b % 16)])).flatten

/-- Hex encoding as a string. -/
def bytesToHex (bs : List Nat) : String := String.mk (bytesToHexList bs)

/-- Value of one hex digit (model of the per-character parsing inside
`bytes.fromhex`). -/
def hexDigitVal (ch : Char) : Option Nat :=
  if '0' ≤ ch ∧ ch ≤ '9' then some (ch.toNat - 48)
  else if 'a' ≤ ch ∧ ch ≤ 'f' then some (ch.toNat - 87)
  else if 'A' ≤ ch ∧ ch ≤ 'F' then some (ch.toNat - 55)
  else none

/-- Model of Python `bytes.fromhex` on whitespace-free input: pairs of hex
digits; odd length or an invalid digit raises `ValueError` (`none`). -/
def bytesFromHexList : List Char → Option (List Nat)
  | [] => some []
  | [_] => none
  | c1 :: c2 :: rest =>
      match hexDigitVal c1, hexDigitVal c2, bytesFromHexList rest with
      | some hi, some lo, some bs => some ((16 * hi + lo) :: bs)
      | _, _, _ => none

/-- Stored-type DEFLATE blocks (RFC 1951 section 3.2.4): each block is a
header byte (`BFINAL` bit, `BTYPE = 00`), `LEN` little-endian, `NLEN` as the
one's complement of `LEN`, then the raw bytes; payloads over 65535 bytes are
chunked. -/
def deflateStored (data : List Nat) : List Nat :=
  if data.length ≤ 65535 then
    1 :: data.length % 256 :: data.length / 256
      :: (255 - data.length % 256) :: (255 - data.length / 256) :: data
  else
    0 :: 255 :: 255 :: 0 :: 0
      :: (data.take 65535 ++ deflateStored (data.drop 65535))
termination_by data.length
decreasing_by simp; omega

/-- Inflate for stored-type blocks, returning the decoded bytes and the
remaining trailer; malformed input (bad header, bad `NLEN`, truncated data,
or a block type outside the model) is rejected. -/
def inflateStored : List Nat → Option (List Nat × List Nat)
  | b :: lo :: hi :: nlo :: nhi :: rest =>
      if (b = 0 ∨ b = 1) ∧ nlo = 255 - lo ∧ nhi = 255 - hi then
        let len := lo + 256 * hi
        if len ≤ rest.length then
          if b = 1 then some (rest.take len, rest.drop len)
          else
            match inflateStored (rest.drop len) with
            | some (d, r) => some (rest.take len ++ d, r)
            | none => none
        else none
      else none
  | _ => none
termination_by l => l.length
decreasing_by simp; omega

/-- One step of the Adler-32 checksum (RFC 1950 section 8). -/
def adlerStep (p : Nat × Nat) (byte : Nat) : Nat × Nat :=
  ((p.1 + byte) % 65521, (p.2 + p.1 + byte) % 65521)

/-- Adler-32 of a byte string. -/
def adler32 (data : List Nat) : Nat :=
  let p := data.foldl adlerStep (1, 0)
  p.2 * 65536 + p.1

/-- The four big-endian Adler-32 trailer bytes. -/
def adler32Bytes (data : List Nat) : List Nat :=
  let n := adler32 data
  [n / 16777216 % 256, n / 65536 % 256, n / 256 % 256, n % 256]

/-- The zlib container with the `78 9c` header (the magic prefix that
`decode_hex_zlib` requires), a stored-block DEFLATE body and the Adler-32
trailer.  `78 9c` satisfies the RFC 1950 header check
(`(CMF*256+FLG) % 31 == 0`, `CM = 8`, no preset dictionary). -/
def zlibCompressStored (data : List Nat) : List Nat :=
  120 :: 156 :: (deflateStored data ++ adler32Bytes data)

/-- Model of `zlib.decompress` (restricted to the stored block type):
header checks, inflate, Adler-32 verification. -/
def zlibDecompress (bytes : List Nat) : Option (List Nat) :=
  match bytes with
  | cmf :: flg :: rest =>
      if cmf % 16 = 8 ∧ (cmf * 256 + flg) % 31 = 0 ∧ flg / 32 % 2 = 0 then
        match inflateStored rest with
        | some (data, trailer) =>
            if trailer = adler32Bytes data then some data else none
        | none => none
      else none
  | _ => none

/-- Modelled from the spec: the encoding direction of the toolchest
compression/hex layer (the toolchest files are produced by the external
Bluebeam application; this repository only decodes them).  Per the spec, a
raw field is "zlib-compress the UTF-8 bytes, hex-encode with the 78 9c magic
prefix". -/
def encodeHexZlib (payload : String) : String :=
  bytesToHex (zlibCompressStored (utf8Encode payload))

/-- `BTXReferenceLoader.decode_hex_zlib`: empty input and inputs without the
`789c` magic prefix are rejected; then `bytes.fromhex`, `zlib.decompress`,
UTF-8 decoding with a latin-1 fallback, and `str.strip()` on the result. -/
def decode_hex_zlib (hexString : String) : Option String :=
  if hexString = "" then none
  else
    let hexLower := pyLower hexString
    if ¬ pyStartsWith hexLower "789c" then none
    else
      match bytesFromHexList hexString.toList with
      | none => none
      | some compressed =>
          match zlibDecompress compressed with
          | none => none
          | some decompressed =>
              match utf8DecodeGo decompressed with
              | some text => some (pyStrip (String.mk text))
              | none => some (pyStrip (String.mk (latin1Decode decompressed)))

/-! ## Concrete instances used by the theorems below -/

/-- An override store with no entries (the JSON file absent or empty). -/
def emptyStore : String → Option IconConfig := fun _ => none

/-- A deliberately partial persisted override entry: only a circle color.
The JSON override file is an external document; nothing in the read path
completes such an entry. -/
def partialOverrideCfg : IconConfig := { circle_color := some (1, 0, 0) }

/-- An override store holding the partial entry for one subject. -/
def partialStore : String → Option IconConfig :=
  fun s => if s = "AP - Cisco MR36H" then some partialOverrideCfg else none

/-- A filesystem with no gear-icon files. -/
def c1Fe : String → Bool := fun _ => false

/-- Image sizes (unused when no file exists). -/
def c1Dims : String → Nat × Nat := fun _ => (0, 0)

/-- A concrete uuid stream. -/
def c1Uuid : Nat → String := fun i => "NM" ++ toString i

/-- A concrete timestamp. -/
def c1Now : String := "D:20260101000000Z"

/-- The compound components rendered for "AP - Cisco MR36H" with no image
file present (root, id box, container, circle, model text, brand text). -/
def c1Out : List Component × Nat :=
  (renderCompoundIcon emptyStore c1Fe c1Dims "gearIcons" 5 "AP - Cisco MR36H"
    (0, 0) "j100").getD ([], 0)

/-- A conversion environment whose input document is missing. -/
def envNoInput : ConvEnv :=
  { mapping := fun _ => none, store := emptyStore,
    fileExists := fun _ => false, imgDims := fun _ => (0, 0), gearDir := "",
    hasRenderer := false, hasLayerMgr := false, ocgLookup := fun _ => none,
    hasAppExtractor := false, appearance := fun _ => none,
    btxDeployment := fun _ => none, uuid := fun _ => "", now := "",
    inputExists := false }

/-- A conversion environment with an existing input document and one
mapping entry, no renderer. -/
def envConvert : ConvEnv :=
  { envNoInput with
    inputExists := true,
    mapping := fun s =>
      if s = "Artist - Indoor Wi-Fi Access Point" then
        some "AP - Cisco MR36H"
      else none }

/-- A plain convertible bid annotation. -/
def sampleAnnot : SrcAnnot :=
  { subj := "Artist - Indoor Wi-Fi Access Point", subtype := "/Circle",
    rect := [100, 200, 150, 250] }

/-- A compound child: `/IRT` set, mapped subject, non-convertible subtype. -/
def irtChildAnnot : SrcAnnot :=
  { subj := "Artist - Indoor Wi-Fi Access Point", subtype := "/FreeText",
    hasIRT := true, rect := [100, 200, 150, 250] }

/-- An annotation whose subject has no mapping. -/
def unmappedAnnot : SrcAnnot :=
  { subj := "Unmapped - Widget", subtype := "/Circle", rect := [0, 0, 1, 1] }

/-- The conversion result for the single `/IRT` child input. -/
def c2Out : (Nat × Nat × List String) × List PageEntry :=
  (replaceAnnotations envConvert [irtChildAnnot]).toOption.getD ((0, 0, []), [])

/-- The conversion result for one unmapped annotation. -/
def c10Out : (Nat × Nat × List String) × List PageEntry :=
  (replaceAnnotations envConvert [unmappedAnnot]).toOption.getD ((0, 0, []), [])

/-- An ASCII payload: every character below code point 128. -/
def allAscii (s : String) : Prop := ∀ c ∈ s.toList, c.toNat < 128

/-- The category defaults entry for a category name is present and complete
(used to case over the finitely many categories). -/
def categoryDefaultsComplete (cat : String) : Prop :=
  match alookup CATEGORY_DEFAULTS cat with
  | some dfl => numericColorComplete dfl
  | none => False

instance (cat : String) : Decidable (categoryDefaultsComplete cat) := by
  unfold categoryDefaultsComplete
  cases alookup CATEGORY_DEFAULTS cat <;> infer_instance

/-! ## Association list lemmas -/

theorem alookup_aset_self {α : Type} (l : List (String × α)) (k : String)
    (v : α) : alookup (aset l k v) k = some v := by
  induction l with
  | nil => simp [aset, alookup]
  | cons hd t ih =>
      obtain ⟨k1, v1⟩ := hd
      by_cases hk : k1 = k
      · simp [aset, hk, alookup]
      · simp [aset, hk, alookup, ih]

theorem alookup_aset_ne {α : Type} (l : List (String × α)) (k k' : String)
    (v : α) (h : k ≠ k') : alookup (aset l k v) k' = alookup l k' := by
  induction l with
  | nil => simp [aset, alookup, h]
  | cons hd t ih =>
      obtain ⟨k1, v1⟩ := hd
      by_cases hk : k1 = k
      · subst hk
        simp [aset, alookup, h, ih]
      · simp [aset, hk, alookup, ih]

theorem alookup_mem {α : Type} {l : List (String × α)} {k : String} {v : α}
    (h : alookup l k = some v) : (k, v) ∈ l := by
  induction l with
  | nil => simp [alookup] at h
  | cons hd t ih =>
      obtain ⟨k1, v1⟩ := hd
      by_cases hk : k1 = k
      · subst hk
        simp [alookup] at h
        simp [h]
      · simp [alookup, hk] at h
        simp [ih h]

/-! ## Identifier assigner lemmas (C4, C5) -/

theorem getNextId_eq_stepNum (s : Counters) (subj : String) :
    getNextId s subj
      = (((stepNum s subj).1).map (fun p => formatIdLabel p.1 p.2),
         (stepNum s subj).2) := by
  unfold getNextId stepNum
  cases getIdPrefixConfig subj <;> simp

theorem runIds_eq_runNums (L : List String) (s : Counters) :
    runIds L s
      = (((runNums L s).1).map (Option.map (fun p => formatIdLabel p.1 p.2)),
         (runNums L s).2) := by
  induction L generalizing s with
  | nil => simp [runIds, runNums]
  | cons a t ih =>
      simp only [runIds, runNums, getNextId_eq_stepNum, ih, List.map_cons]

/-- Drawing an identifier for a subject that does not hit counter `K` leaves
counter `K`'s value unchanged. -/
theorem stepNum_preserves_other (s : Counters) (subj K : String)
    (h : hitsKey K subj = false) :
    alookup (stepNum s subj).2 K = alookup s K := by
  unfold hitsKey at h
  unfold stepNum
  cases hc : getIdPrefixConfig subj with
  | none => simp
  | some cfg =>
      rw [hc] at h
      have hne : counterKey cfg ≠ K := by simpa using h
      simp only []
      exact alookup_aset_ne _ _ _ _ hne

/-- A subject that does not hit counter `K` contributes nothing to `K`'s
observed numeric sequence. -/
theorem numsAt_skip (K : String) (s : Counters) (subj : String)
    (h : hitsKey K subj = false)
    (rest : List (Option (IdPrefixCfg × Nat))) :
    numsAt K ((stepNum s subj).1 :: rest) = numsAt K rest := by
  unfold hitsKey at h
  unfold numsAt stepNum
  cases hc : getIdPrefixConfig subj with
  | none => simp
  | some cfg =>
      rw [hc] at h
      have hne : counterKey cfg ≠ K := by simpa using h
      simp [List.filterMap_cons, hne, numsAt]

/-- The numeric sequence observed at counter `K` depends only on `K`'s
current value. -/
theorem numsAt_congr (K : String) (L : List String) :
    ∀ s1 s2 : Counters, alookup s1 K = alookup s2 K →
      numsAt K (runNums L s1).1 = numsAt K (runNums L s2).1 := by
  induction L with
  | nil => intro s1 s2 _; simp [runNums]
  | cons a t ih =>
      intro s1 s2 h
      by_cases ha : hitsKey K a = true
      · unfold hitsKey at ha
        cases hc : getIdPrefixConfig a with
        | none => rw [hc] at ha; simp at ha
        | some cfg =>
            rw [hc] at ha
            have hK : counterKey cfg = K := by simpa using ha
            have hcurK :
                (match alookup s1 K with
                 | none => cfg.start | some v => v + 1)
                  = (match alookup s2 K with
                     | none => cfg.start | some v => v + 1) := by
              rw [h]
            have hstates :
                alookup (stepNum s1 a).2 K = alookup (stepNum s2 a).2 K := by
              unfold stepNum
              rw [hc]
              simp only []
              rw [hK]
              rw [alookup_aset_self, alookup_aset_self, hcurK]
            have hih := ih (stepNum s1 a).2 (stepNum s2 a).2 hstates
            have hhead : (stepNum s1 a).1 = (stepNum s2 a).1 := by
              unfold stepNum
              rw [hc]
              simp only []
              rw [hK, hcurK]
            show numsAt K ((stepNum s1 a).1 :: (runNums t (stepNum s1 a).2).1)
                = numsAt K ((stepNum s2 a).1 :: (runNums t (stepNum s2 a).2).1)
            unfold numsAt
            rw [List.filterMap_cons, List.filterMap_cons, hhead]
            unfold numsAt at hih
            rw [hih]
      · have ha' : hitsKey K a = false := by simpa using ha
        have hih := ih (stepNum s1 a).2 (stepNum s2 a).2
          (by rw [stepNum_preserves_other s1 a K ha',
                  stepNum_preserves_other s2 a K ha', h])
        show numsAt K ((stepNum s1 a).1 :: (runNums t (stepNum s1 a).2).1)
            = numsAt K ((stepNum s2 a).1 :: (runNums t (stepNum s2 a).2).1)
        rw [numsAt_skip K s1 a ha', numsAt_skip K s2 a ha', hih]

/-- Calls to other counters can be filtered out without changing the numeric
sequence observed at counter `K`. -/
theorem numsAt_filter (K : String) (L : List String) :
    ∀ s : Counters,
      numsAt K (runNums L s).1
        = numsAt K (runNums (L.filter (hitsKey K)) s).1 := by
  induction L with
  | nil => intro s; simp
  | cons a t ih =>
      intro s
      by_cases ha : hitsKey K a = true
      · rw [List.filter_cons_of_pos ha]
        show numsAt K ((stepNum s a).1 :: (runNums t (stepNum s a).2).1)
            = numsAt K ((stepNum s a).1
                :: (runNums (t.filter (hitsKey K)) (stepNum s a).2).1)
        unfold numsAt
        rw [List.filterMap_cons, List.filterMap_cons]
        have hih := ih (stepNum s a).2
        unfold numsAt at hih
        rw [hih]
      · have ha' : hitsKey K a = false := by simpa using ha
        rw [List.filter_cons_of_neg (by simp [ha'])]
        show numsAt K ((stepNum s a).1 :: (runNums t (stepNum s a).2).1)
            = numsAt K (runNums (t.filter (hitsKey K)) s).1
        rw [numsAt_skip K s a ha']
        rw [numsAt_congr K t (stepNum s a).2 s
          (stepNum_preserves_other s a K ha')]
        exact ih s

/-- Progress on one counter: from a state where counter `K`'s next value is
`n`, a run of subjects all hitting `K` emits `n, n + 1, ...`. -/
theorem runNums_same_key (K : String) (st : Nat) :
    ∀ (L : List String) (s : Counters) (n : Nat),
      (∀ subj ∈ L, ∃ cfg, getIdPrefixConfig subj = some cfg ∧
          counterKey cfg = K ∧ cfg.start = st) →
      (match alookup s K with | none => st | some v => v + 1) = n →
      ((runNums L s).1).filterMap (fun o => o.map (fun q => q.2))
        = (List.range L.length).map (fun i => n + i) := by
  intro L
  induction L with
  | nil => intro s n _ _; simp [runNums]
  | cons a t ih =>
      intro s n hall hn
      obtain ⟨cfg, hc, hK, hst⟩ := hall a (by simp)
      have hcur :
          (match alookup s (counterKey cfg) with
           | none => cfg.start | some v => v + 1) = n := by
        rw [← hK, ← hst] at hn
        exact hn
      have hstep : stepNum s a = (some (cfg, n), aset s (counterKey cfg) n) := by
        unfold stepNum
        rw [hc]
        simp only []
        rw [hcur]
      have hstate :
          (match alookup (aset s (counterKey cfg) n) K with
           | none => st | some v => v + 1) = n + 1 := by
        rw [← hK]
        simp [alookup_aset_self]
      have hih := ih (aset s (counterKey cfg) n) (n + 1)
        (fun subj hs => hall subj (by simp [hs])) hstate
      have hrun : (runNums (a :: t) s).1
          = some (cfg, n) :: (runNums t (aset s (counterKey cfg) n)).1 := by
        show (stepNum s a).1 :: (runNums t (stepNum s a).2).1 = _
        rw [hstep]
      rw [hrun]
      show n :: ((runNums t (aset s (counterKey cfg) n)).1).filterMap
          (fun o => o.map (fun q => q.2))
        = (List.range (t.length + 1)).map (fun i => n + i)
      rw [hih, List.range_succ_eq_map]
      simp only [List.map_cons, List.map_map, Nat.add_zero]
      congr 1
      apply List.map_congr_left
      intro i _
      simp only [Function.comp_apply]
      omega

/-- Replicated calls for one configured subject, with the full label list. -/
theorem runNums_replicate (subj : String) (cfg : IdPrefixCfg)
    (hc : getIdPrefixConfig subj = some cfg) :
    ∀ (N : Nat) (s : Counters) (n : Nat),
      (match alookup s (counterKey cfg) with
       | none => cfg.start | some v => v + 1) = n →
      ((runNums (List.replicate N subj) s).1)
        = (List.range N).map (fun i => some (cfg, n + i)) := by
  intro N
  induction N with
  | zero => intro s n _; simp [runNums]
  | succ m ih =>
      intro s n hn
      have hstep : stepNum s subj = (some (cfg, n), aset s (counterKey cfg) n) := by
        unfold stepNum
        rw [hc]
        simp only []
        rw [hn]
      have hstate :
          (match alookup (aset s (counterKey cfg) n) (counterKey cfg) with
           | none => cfg.start | some v => v + 1) = n + 1 := by
        simp [alookup_aset_self]
      have hih := ih (aset s (counterKey cfg) n) (n + 1) hstate
      rw [List.replicate_succ]
      have hrun : (runNums (subj :: List.replicate m subj) s).1
          = some (cfg, n)
              :: (runNums (List.replicate m subj) (aset s (counterKey cfg) n)).1 := by
        show (stepNum s subj).1 :: (runNums (List.replicate m subj) (stepNum s subj).2).1 = _
        rw [hstep]
      rw [hrun, hih, List.range_succ_eq_map]
      simp only [List.map_cons, List.map_map, Nat.add_zero]
      congr 1
      apply List.map_congr_left
      intro i _
      have harith : n + 1 + i = n + Nat.succ i := by omega
      simp only [Function.comp_apply, harith]

/-- C4: for a subject with a configured identifier prefix and start, N
sequential `get_next_id` calls yield N labels with strictly increasing
numeric parts, each formatted per the subject's configured format (part 1:
the exact label list); any family of subjects sharing one (prefix, start)
pair observes one combined strictly increasing numeric sequence (part 2);
and the numeric sequence a counter observes is unchanged when calls to
subjects of other counters are interleaved, so counters with the same prefix
but different starts never affect each other (part 3). -/
theorem claim_C4_id_assigner :
    (∀ (subj : String) (cfg : IdPrefixCfg) (N : Nat),
        getIdPrefixConfig subj = some cfg →
        (runIds (List.replicate N subj) []).1
          = (List.range N).map
              (fun i => some (formatIdLabel cfg (cfg.start + i))))
    ∧ (∀ (L : List String) (p : String) (st : Nat),
        (∀ subj ∈ L, ∃ cfg, getIdPrefixConfig subj = some cfg ∧
            cfg.pfx = p ∧ cfg.start = st) →
        ((runNums L []).1).filterMap (fun o => o.map (fun q => q.2))
            = (List.range L.length).map (fun i => st + i)
          ∧ (((runNums L []).1).filterMap
              (fun o => o.map (fun q => q.2))).Pairwise (· < ·))
    ∧ (∀ (K : String) (L : List String) (s : Counters),
        numsAt K (runNums L s).1
          = numsAt K (runNums (L.filter (hitsKey K)) s).1) := by
  refine ⟨?_, ?_, ?_⟩
  · intro subj cfg N hc
    rw [runIds_eq_runNums]
    simp only []
    rw [runNums_replicate subj cfg hc N [] cfg.start (by simp [alookup])]
    simp [List.map_map, Function.comp]
  · intro L p st hall
    have hkey : ∀ subj ∈ L, ∃ cfg, getIdPrefixConfig subj = some cfg ∧
        counterKey cfg = p ++ "_" ++ toString st ∧ cfg.start = st := by
      intro subj hs
      obtain ⟨cfg, hc, hp, hst⟩ := hall subj hs
      exact ⟨cfg, hc, by rw [counterKey, hp, hst], hst⟩
    have heq := runNums_same_key (p ++ "_" ++ toString st) st L [] st hkey
      (by simp [alookup])
    refine ⟨heq, ?_⟩
    rw [heq]
    exact (List.pairwise_lt_range L.length).map _
      (fun a b hab => by omega)
  · intro K L s
    exact numsAt_filter K L s

/-- C4 witness: concrete instances of all three parts — two draws for
"AP - Cisco MR36H" give "j100", "j101"; "DIST - Mini NOC" and
"DIST - Mega NOC" share prefix "f" and start 100 and observe the combined
sequence 100, 101; filtering a mixed run to counter "j_100" preserves its
numeric sequence. -/
theorem claim_C4_id_assigner_witness :
    (getIdPrefixConfig "AP - Cisco MR36H" = some { pfx := "j", start := 100 }
      ∧ (runIds (List.replicate 2 "AP - Cisco MR36H") []).1
          = (List.range 2).map
              (fun i => some (formatIdLabel { pfx := "j", start := 100 } (100 + i))))
    ∧ ((∀ subj ∈ ["DIST - Mini NOC", "DIST - Mega NOC"],
          ∃ cfg, getIdPrefixConfig subj = some cfg ∧
            cfg.pfx = "f" ∧ cfg.start = 100)
      ∧ ((runNums ["DIST - Mini NOC", "DIST - Mega NOC"] []).1).filterMap
            (fun o => o.map (fun q => q.2))
          = (List.range 2).map (fun i => 100 + i))
    ∧ numsAt "j_100"
        (runNums ["AP - Cisco MR36H", "DIST - Mini NOC", "AP - Cisco MR36H"] []).1
      = numsAt "j_100"
          (runNums (["AP - Cisco MR36H", "DIST - Mini NOC",
            "AP - Cisco MR36H"].filter (hitsKey "j_100")) []).1 := by
  refine ⟨⟨by decide, ?_⟩, ⟨?_, ?_⟩, ?_⟩
  · exact claim_C4_id_assigner.1 "AP - Cisco MR36H" { pfx := "j", start := 100 } 2
      (by decide)
  · decide
  · exact (claim_C4_id_assigner.2.1 ["DIST - Mini NOC", "DIST - Mega NOC"]
      "f" 100 (by decide)).1
  · exact claim_C4_id_assigner.2.2 "j_100"
      ["AP - Cisco MR36H", "DIST - Mini NOC", "AP - Cisco MR36H"] []

/-- C5: resetting the assigner erases all counter state, so performing a
lookup sequence on a fresh assigner, resetting, and performing it again
reproduces the identical label sequence; in fact after a reset the output
depends only on the lookup sequence, whatever state the assigner had. -/
theorem claim_C5_reset_determinism :
    ∀ (seq : List String) (s0 : Counters),
      (runIds seq (resetAssigner (runIds seq s0).2)).1 = (runIds seq []).1
      ∧ ∀ s1 : Counters,
          (runIds seq (resetAssigner s1)).1 = (runIds seq (resetAssigner s0)).1 := by
  intro seq s0
  exact ⟨rfl, fun s1 => rfl⟩

/-! ## Icon style resolver (C7) -/

theorem or_isSome {α : Type} (a b : Option α) (h : b.isSome) :
    (a.or b).isSome := by
  cases a <;> simp [Option.or, h]

theorem numericColorComplete_update (base o : IconConfig)
    (h : numericColorComplete base) :
    numericColorComplete (updateCfg base o) := by
  obtain ⟨h1, h2, h3, h4, h5, h6, h7, h8, h9, h10, h11, h12, h13, h14, h15⟩ := h
  exact ⟨or_isSome _ _ h1, or_isSome _ _ h2, or_isSome _ _ h3,
    or_isSome _ _ h4, or_isSome _ _ h5, or_isSome _ _ h6, or_isSome _ _ h7,
    or_isSome _ _ h8, or_isSome _ _ h9, or_isSome _ _ h10,
    or_isSome _ _ h11, or_isSome _ _ h12, or_isSome _ _ h13,
    or_isSome _ _ h14, or_isSome _ _ h15⟩

theorem getIconConfigPython_eq (subject cat : String)
    (hcat : alookup ICON_CATEGORIES subject = some cat) :
    getIconConfigPython subject
      = { updateCfg ((alookup CATEGORY_DEFAULTS cat).getD emptyIconConfig)
            ((alookup ICON_OVERRIDES subject).getD emptyIconConfig) with
          image_path := some ((alookup ICON_IMAGE_PATHS subject).getD none),
          category := some cat } := by
  unfold getIconConfigPython
  rw [hcat]

/-- C7 counterexample: a persisted JSON override holding only a circle color
is returned directly by `get_icon_config` — neither the explicit not-found
result (the empty dict) nor a configuration with the renderer's numeric and
color fields concrete, refuting the claim for the override path. -/
theorem claim_C7_counterexample :
    getIconConfig partialStore "AP - Cisco MR36H" = partialOverrideCfg
    ∧ partialOverrideCfg ≠ emptyIconConfig
    ∧ ¬ numericColorComplete (getIconConfig partialStore "AP - Cisco MR36H") := by
  refine ⟨rfl, by decide, by decide⟩

/-- C7 amended: when the override store has no (non-empty) persisted entry
for the subject, `get_icon_config` returns either the empty dict together
with the subject having no category mapping (the explicit not-found result),
or a configuration in which every numeric and color field of the category
defaults is concrete after the layered merge.  A persisted JSON override, in
contrast, is returned verbatim and is complete only if it was stored
complete. -/
theorem claim_C7_resolver_amended (store : String → Option IconConfig)
    (subject : String)
    (hstore : store subject = none ∨ store subject = some emptyIconConfig) :
    (getIconConfig store subject = emptyIconConfig
        ∧ alookup ICON_CATEGORIES subject = none)
    ∨ numericColorComplete (getIconConfig store subject) := by
  have hred : getIconConfig store subject = getIconConfigPython subject := by
    unfold getIconConfig
    rcases hstore with h | h <;> rw [h]
    simp
  rw [hred]
  cases hcat : alookup ICON_CATEGORIES subject with
  | none =>
      left
      constructor
      · unfold getIconConfigPython
        rw [hcat]
      · rfl
  | some cat =>
      right
      have hall : ∀ p ∈ ICON_CATEGORIES, categoryDefaultsComplete p.2 := by
        decide
      have hc := hall (subject, cat) (alookup_mem hcat)
      unfold categoryDefaultsComplete at hc
      cases hdfl : alookup CATEGORY_DEFAULTS cat with
      | none => rw [hdfl] at hc; exact hc.elim
      | some dfl =>
          rw [hdfl] at hc
          rw [getIconConfigPython_eq subject cat hcat, hdfl]
          simp only [Option.getD_some]
          exact numericColorComplete_update dfl _ hc

/-- C7 witness: with an empty override store and the subject
"AP - Cisco MR36H", the merged configuration has all numeric/color fields
concrete. -/
theorem claim_C7_resolver_amended_witness :
    (emptyStore "AP - Cisco MR36H" = none
        ∨ emptyStore "AP - Cisco MR36H" = some emptyIconConfig)
    ∧ ((getIconConfig emptyStore "AP - Cisco MR36H" = emptyIconConfig
          ∧ alookup ICON_CATEGORIES "AP - Cisco MR36H" = none)
        ∨ numericColorComplete (getIconConfig emptyStore "AP - Cisco MR36H")) :=
  ⟨Or.inl rfl,
   claim_C7_resolver_amended emptyStore "AP - Cisco MR36H" (Or.inl rfl)⟩

/-! ## Compound group invariants (C1) -/

set_option maxHeartbeats 1000000 in
/-- `render_compound_icon` always emits the root first (role
`root_id_text`) and between 3 and 7 components. -/
theorem renderCompoundIcon_shape (store : String → Option IconConfig)
    (fe : String → Bool) (dims : String → Nat × Nat) (gd : String)
    (oid : Nat) (subject : String) (center : ℚ × ℚ) (idLabel : String)
    (comps : List Component) (oid1 : Nat)
    (h : renderCompoundIcon store fe dims gd oid subject center idLabel
        = some (comps, oid1)) :
    (∃ c0 rest, comps = c0 :: rest ∧ c0.role = "root_id_text")
    ∧ 3 ≤ comps.length ∧ comps.length ≤ 7 := by
  simp only [renderCompoundIcon] at h
  split at h
  · exact absurd h (by simp)
  · simp only [Option.some.injEq, Prod.mk.injEq] at h
    obtain ⟨hl, -⟩ := h
    subst hl
    refine ⟨⟨_, _, rfl, rfl⟩, ?_, ?_⟩ <;>
    · split_ifs <;>
        (simp only [List.length_append, List.length_cons,
          List.length_nil]) <;>
        omega

/-- Every child annotation of a compound group carries `/IRT` to the root,
no `/Sequence`, and the shared group properties. -/
theorem compoundChildAnnots_mem (ds now : String) (gn : List String)
    (nms : List String) (ocg : Option Nat) (rootRef : Nat) :
    ∀ (l : List Component) (i objId : Nat) (pr : Nat × AnnotDict),
      pr ∈ compoundChildAnnots ds now gn nms ocg rootRef i objId l →
      pr.2.irt = some rootRef ∧ pr.2.sequence = none
        ∧ pr.2.groupNesting = some gn ∧ pr.2.subj = ds
        ∧ pr.2.m = now ∧ pr.2.creationDate = now := by
  intro l
  induction l with
  | nil => intro i objId pr hpr; simp [compoundChildAnnots] at hpr
  | cons cmp rest ih =>
      intro i objId pr hpr
      simp only [compoundChildAnnots, List.mem_cons] at hpr
      rcases hpr with hh | hh
      · subst hh
        exact ⟨rfl, rfl, rfl, rfl, rfl, rfl⟩
      · exact ih _ _ _ hh

theorem compoundChildAnnots_length (ds now : String) (gn : List String)
    (nms : List String) (ocg : Option Nat) (rootRef : Nat) :
    ∀ (l : List Component) (i objId : Nat),
      (compoundChildAnnots ds now gn nms ocg rootRef i objId l).length
        = l.length := by
  intro l
  induction l with
  | nil => intro i objId; simp [compoundChildAnnots]
  | cons cmp rest ih =>
      intro i objId
      simp [compoundChildAnnots, ih]

/-- C1: for every compound group emitted by `render_compound_icon` and
serialized by `_create_compound_annotation_group`: the group has as many
annotations as components, between 3 and 7; the first component has role
`root_id_text` and its annotation (the first registered reference) carries
no `/IRT` and carries the `/Sequence` dict with the run id and the current
run-global counter position; every other annotation carries `/IRT` pointing
at the root's reference and no `/Sequence`; all annotations share the same
`/GroupNesting` array, `/Subj` and `/M`/`/CreationDate` timestamps; and the
run-global sequence counter advances by exactly one, making the root's
position unique within the conversion run. -/
theorem claim_C1_compound_group (store : String → Option IconConfig)
    (fe : String → Bool) (dims : String → Nat × Nat) (gd : String)
    (oid : Nat) (subject : String) (center : ℚ × ℚ) (idLabel : String)
    (uuidAt : Nat → String) (now seqIid : String) (seqC : Nat)
    (ocg : Option Nat) (comps : List Component) (oid1 : Nat)
    (h : renderCompoundIcon store fe dims gd oid subject center idLabel
        = some (comps, oid1)) :
    ((createCompoundAnnotationGroup uuidAt now seqIid seqC oid1 comps subject
        ocg).1.length = comps.length
      ∧ 3 ≤ comps.length ∧ comps.length ≤ 7)
    ∧ (∃ rootDict,
        (createCompoundAnnotationGroup uuidAt now seqIid seqC oid1 comps
            subject ocg).1.head? = some (oid1, rootDict)
        ∧ rootDict.irt = none
        ∧ rootDict.sequence = some (seqIid, seqC)
        ∧ comps.head?.map Component.role = some "root_id_text")
    ∧ (∀ pr ∈ (createCompoundAnnotationGroup uuidAt now seqIid seqC oid1
          comps subject ocg).1.tail,
        pr.2.irt = some oid1 ∧ pr.2.sequence = none)
    ∧ (∀ pr ∈ (createCompoundAnnotationGroup uuidAt now seqIid seqC oid1
          comps subject ocg).1,
        pr.2.groupNesting
            = some (subject
                :: ((List.range comps.length).map uuidAt).map
                    (fun nm => "/" ++ nm))
          ∧ pr.2.subj = subject ∧ pr.2.m = now ∧ pr.2.creationDate = now)
    ∧ (createCompoundAnnotationGroup uuidAt now seqIid seqC oid1 comps
        subject ocg).2.1 = seqC + 1 := by
  obtain ⟨⟨c0, rest, hc, hrole⟩, hlen3, hlen7⟩ :=
    renderCompoundIcon_shape store fe dims gd oid subject center idLabel
      comps oid1 h
  subst hc
  refine ⟨⟨?_, hlen3, hlen7⟩, ?_, ?_, ?_, rfl⟩
  · show ((oid1, _) :: compoundChildAnnots _ _ _ _ _ _ _ _ rest).length = _
    rw [List.length_cons, compoundChildAnnots_length]
    simp
  · exact ⟨_, rfl, rfl, rfl, by simp [hrole]⟩
  · intro pr hpr
    have := compoundChildAnnots_mem subject now _ _ ocg oid1 rest 1 (oid1 + 1)
      pr hpr
    exact ⟨this.1, this.2.1⟩
  · intro pr hpr
    rcases List.mem_cons.mp hpr with hh | hh
    · subst hh
      exact ⟨rfl, rfl, rfl, rfl⟩
    · have := compoundChildAnnots_mem subject now _ _ ocg oid1 rest 1 (oid1 + 1)
        pr hh
      exact ⟨this.2.2.1, this.2.2.2.1, this.2.2.2.2.1, this.2.2.2.2.2⟩

/-- C1 witness: the six-component group rendered for "AP - Cisco MR36H"
(no image file present) satisfies the invariant at concrete inputs. -/
theorem claim_C1_compound_group_witness :
    (renderCompoundIcon emptyStore c1Fe c1Dims "gearIcons" 5
        "AP - Cisco MR36H" (0, 0) "j100" = some (c1Out.1, c1Out.2))
    ∧ (((createCompoundAnnotationGroup c1Uuid c1Now "RUNID" 0 c1Out.2 c1Out.1
          "AP - Cisco MR36H" none).1.length = c1Out.1.length
        ∧ 3 ≤ c1Out.1.length ∧ c1Out.1.length ≤ 7)
      ∧ (∃ rootDict,
          (createCompoundAnnotationGroup c1Uuid c1Now "RUNID" 0 c1Out.2
              c1Out.1 "AP - Cisco MR36H" none).1.head?
            = some (c1Out.2, rootDict)
          ∧ rootDict.irt = none
          ∧ rootDict.sequence = some ("RUNID", 0)
          ∧ c1Out.1.head?.map Component.role = some "root_id_text")
      ∧ (∀ pr ∈ (createCompoundAnnotationGroup c1Uuid c1Now "RUNID" 0
            c1Out.2 c1Out.1 "AP - Cisco MR36H" none).1.tail,
          pr.2.irt = some c1Out.2 ∧ pr.2.sequence = none)
      ∧ (∀ pr ∈ (createCompoundAnnotationGroup c1Uuid c1Now "RUNID" 0
            c1Out.2 c1Out.1 "AP - Cisco MR36H" none).1,
          pr.2.groupNesting
              = some ("AP - Cisco MR36H"
                  :: ((List.range c1Out.1.length).map c1Uuid).map
                      (fun nm => "/" ++ nm))
            ∧ pr.2.subj = "AP - Cisco MR36H" ∧ pr.2.m = c1Now
            ∧ pr.2.creationDate = c1Now)
      ∧ (createCompoundAnnotationGroup c1Uuid c1Now "RUNID" 0 c1Out.2
          c1Out.1 "AP - Cisco MR36H" none).2.1 = 0 + 1) :=
  ⟨rfl,
   claim_C1_compound_group emptyStore c1Fe c1Dims "gearIcons" 5
     "AP - Cisco MR36H" (0, 0) "j100" c1Uuid c1Now "RUNID" 0 none
     c1Out.1 c1Out.2 rfl⟩

/-! ## Conversion engine loop lemmas (C2, C10) -/

/-- `processOne` only appends entries: the original reference of the current
index survives into the rebuilt array only on the preserve/skip paths, all
of which imply that the annotation is not a mapped `/IRT` child (or has no
subject at all). -/
theorem processOne_orig_mem (env : ConvEnv) (seqIid : String) (idx : Nat)
    (st : LoopState) (a : SrcAnnot) (i : Nat)
    (h : PageEntry.orig i ∈ (processOne env seqIid idx st a).newAnnots) :
    PageEntry.orig i ∈ st.newAnnots
      ∨ (i = idx ∧ (a.subj = ""
          ∨ ¬(a.hasIRT = true ∧ (env.mapping a.subj).isSome))) := by
  simp only [processOne] at h
  split_ifs at h <;> (try split at h) <;> (try split_ifs at h) <;>
    (try split at h) <;>
    (try simp_all [List.mem_append, List.mem_map]) <;> tauto

/-- Membership of an original reference in the rebuilt array after the loop:
it was already present, or its annotation was processed on a preserve/skip
path. -/
theorem processGo_orig_mem (env : ConvEnv) (seqIid : String) :
    ∀ (l : List SrcAnnot) (idx0 : Nat) (st : LoopState) (i : Nat),
      PageEntry.orig i ∈ (processGo env seqIid idx0 st l).newAnnots →
      PageEntry.orig i ∈ st.newAnnots
        ∨ ∃ j a, l.get? j = some a ∧ idx0 + j = i
            ∧ (a.subj = ""
                ∨ ¬(a.hasIRT = true ∧ (env.mapping a.subj).isSome)) := by
  intro l
  induction l with
  | nil => intro idx0 st i h; exact Or.inl h
  | cons a t ih =>
      intro idx0 st i h
      rcases ih (idx0 + 1) (processOne env seqIid idx0 st a) i h with hin | hex
      · rcases processOne_orig_mem env seqIid idx0 st a i hin with hst | hcond
        · exact Or.inl hst
        · exact Or.inr ⟨0, a, rfl, by omega, hcond.2⟩
      · obtain ⟨j, b, hj, hidx, hcond⟩ := hex
        exact Or.inr ⟨j + 1, b, by simpa using hj, by omega, hcond⟩

/-- C2: every annotation with `/IRT` set whose subject has a deployment
mapping is absent from the rebuilt annotation array produced by
`replace_annotations`, regardless of the annotation's own subtype.  The
hypothesis `env.mapping "" = none` reflects that `MappingParser` never
stores an empty bid subject. -/
theorem claim_C2_irt_children_dropped (env : ConvEnv)
    (hmap : env.mapping "" = none) (annots : List SrcAnnot) (i : Nat)
    (a : SrcAnnot) (ha : annots.get? i = some a) (hirt : a.hasIRT = true)
    (hm : (env.mapping a.subj).isSome) (tup : Nat × Nat × List String)
    (entries : List PageEntry)
    (hrun : replaceAnnotations env annots = .ok (tup, entries)) :
    PageEntry.orig i ∉ entries := by
  unfold replaceAnnotations at hrun
  split at hrun
  · simp only [Except.ok.injEq, Prod.mk.injEq] at hrun
    rw [← hrun.2]
    simp
  · simp only [Except.ok.injEq, Prod.mk.injEq] at hrun
    rw [← hrun.2]
    intro hmem
    rcases processGo_orig_mem env (env.uuid 0) annots 0 { uuidIdx := 1 } i
      hmem with hin | hex
    · simp at hin
    · obtain ⟨j, b, hj, hidx, hcond⟩ := hex
      have hji : j = i := by omega
      subst hji
      rw [ha] at hj
      injection hj with hba
      subst hba
      rcases hcond with hempty | hnot
      · rw [hempty, hmap] at hm
        simp at hm
      · exact hnot ⟨hirt, hm⟩

/-- C2 witness: the concrete `/IRT` child with a mapped subject does not
survive into the rebuilt array. -/
theorem claim_C2_irt_children_dropped_witness :
    envConvert.mapping "" = none
    ∧ [irtChildAnnot].get? 0 = some irtChildAnnot
    ∧ irtChildAnnot.hasIRT = true
    ∧ (envConvert.mapping irtChildAnnot.subj).isSome
    ∧ replaceAnnotations envConvert [irtChildAnnot] = .ok (c2Out.1, c2Out.2)
    ∧ PageEntry.orig 0 ∉ c2Out.2 :=
  ⟨rfl, rfl, rfl, rfl, rfl,
   claim_C2_irt_children_dropped envConvert rfl [irtChildAnnot] 0
     irtChildAnnot rfl rfl rfl c2Out.1 c2Out.2 rfl⟩

/-- Each branch of the loop body either leaves the skip tally and the
skipped-subject list unchanged or extends both by exactly one. -/
theorem processOne_balance (env : ConvEnv) (seqIid : String) (idx : Nat)
    (st : LoopState) (a : SrcAnnot)
    (h : st.skipped = st.skippedSubjects.length) :
    (processOne env seqIid idx st a).skipped
      = (processOne env seqIid idx st a).skippedSubjects.length := by
  simp only [processOne]
  split_ifs <;> (try split) <;> (try split_ifs) <;> (try split) <;> simp [h]

theorem processGo_balance (env : ConvEnv) (seqIid : String) :
    ∀ (l : List SrcAnnot) (idx0 : Nat) (st : LoopState),
      st.skipped = st.skippedSubjects.length →
      (processGo env seqIid idx0 st l).skipped
        = (processGo env seqIid idx0 st l).skippedSubjects.length := by
  intro l
  induction l with
  | nil => intro idx0 st h; exact h
  | cons a t ih =>
      intro idx0 st h
      exact ih (idx0 + 1) (processOne env seqIid idx0 st a)
        (processOne_balance env seqIid idx0 st a h)

/-- C10: the tuple returned by `replace_annotations` always satisfies
`skipped_count == len(skipped_subjects)` — every path that increments the
skip tally (no mapping, invalid rectangle, per-entry exception) appends
exactly one entry to the skipped-subjects list. -/
theorem claim_C10_skip_balance (env : ConvEnv) (annots : List SrcAnnot)
    (tup : Nat × Nat × List String) (entries : List PageEntry)
    (hrun : replaceAnnotations env annots = .ok (tup, entries)) :
    tup.2.1 = tup.2.2.length := by
  unfold replaceAnnotations at hrun
  split at hrun
  · simp only [Except.ok.injEq, Prod.mk.injEq] at hrun
    rw [← hrun.1]
    rfl
  · simp only [Except.ok.injEq, Prod.mk.injEq] at hrun
    rw [← hrun.1]
    exact processGo_balance env (env.uuid 0) annots 0 { uuidIdx := 1 } rfl

/-- C10 witness: one unmapped annotation yields one skip and one skipped
subject. -/
theorem claim_C10_skip_balance_witness :
    replaceAnnotations envConvert [unmappedAnnot] = .ok (c10Out.1, c10Out.2)
    ∧ c10Out.1.2.1 = c10Out.1.2.2.length :=
  ⟨rfl,
   claim_C10_skip_balance envConvert [unmappedAnnot] c10Out.1 c10Out.2 rfl⟩

/-! ## Single-annotation fallback and native properties (C3) -/

/-- `render_compound_icon` fails exactly when the resolved config is the
empty dict. -/
theorem renderCompoundIcon_none_empty (store : String → Option IconConfig)
    (fe : String → Bool) (dims : String → Nat × Nat) (gd : String)
    (oid : Nat) (subject : String) (center : ℚ × ℚ) (idLabel : String)
    (h : renderCompoundIcon store fe dims gd oid subject center idLabel
        = none) :
    getIconConfig store subject = emptyIconConfig := by
  by_contra hne
  simp only [renderCompoundIcon] at h
  rw [if_neg hne] at h
  exact absurd h (by simp)

/-- An empty resolved config makes `can_render` false. -/
theorem canRender_empty (store : String → Option IconConfig)
    (fe : String → Bool) (gd : String) (subject : String)
    (h : getIconConfig store subject = emptyIconConfig) :
    canRender store fe gd subject = false := by
  simp [canRender, h]

/-- C3: in the single-annotation fallback path, the rich renderer can never
have produced an appearance reference — the fallback is taken only when the
renderer is absent or the resolved config is empty, and in both cases
`_render_rich_icon` returns `None` — so the emitted fallback annotation,
which carries `/IC`, `/C` and `/BS`, carries them precisely in the
"no rich appearance stream was produced" case; the claim's other direction
("rich produced → no native properties") holds because that case is
impossible on this path. -/
theorem claim_C3_fallback_native_props (env : ConvEnv) (objId : Nat)
    (depSubj : String) (center : ℚ × ℚ) (idLabel : String) (rect : List ℚ)
    (nm : String) (fill stroke : Color) (subtype : String) (ocg : Option Nat)
    (hfb : ∀ c cs n,
      (if env.hasRenderer then
          renderCompoundIcon env.store env.fileExists env.imgDims env.gearDir
            objId depSubj center idLabel
        else none) ≠ some (c :: cs, n)) :
    (renderRichIcon env.hasRenderer env.store env.fileExists env.gearDir
        objId depSubj rect idLabel).1 = none
    ∧ (createDeploymentAnnotationDict nm env.now rect depSubj
          (createSimpleAppearance
            (renderRichIcon env.hasRenderer env.store env.fileExists
              env.gearDir objId depSubj rect idLabel).2
            rect fill stroke subtype).1
          fill stroke subtype ocg).ic.isSome = true
    ∧ (createDeploymentAnnotationDict nm env.now rect depSubj
          (createSimpleAppearance
            (renderRichIcon env.hasRenderer env.store env.fileExists
              env.gearDir objId depSubj rect idLabel).2
            rect fill stroke subtype).1
          fill stroke subtype ocg).c.isSome = true
    ∧ (createDeploymentAnnotationDict nm env.now rect depSubj
          (createSimpleAppearance
            (renderRichIcon env.hasRenderer env.store env.fileExists
              env.gearDir objId depSubj rect idLabel).2
            rect fill stroke subtype).1
          fill stroke subtype ocg).bs.isSome = true := by
  have hrichnone :
      (renderRichIcon env.hasRenderer env.store env.fileExists env.gearDir
        objId depSubj rect idLabel).1 = none := by
    by_cases hr : env.hasRenderer = true
    · have hnone : renderCompoundIcon env.store env.fileExists env.imgDims
          env.gearDir objId depSubj center idLabel = none := by
        cases hrc : renderCompoundIcon env.store env.fileExists env.imgDims
          env.gearDir objId depSubj center idLabel with
        | none => rfl
        | some pr =>
            obtain ⟨l, n⟩ := pr
            obtain ⟨⟨c0, rest, hc, -⟩, -, -⟩ :=
              renderCompoundIcon_shape env.store env.fileExists env.imgDims
                env.gearDir objId depSubj center idLabel l n hrc
            subst hc
            exact absurd (by rw [if_pos hr]; exact hrc) (hfb c0 rest n)
      have hemp := renderCompoundIcon_none_empty env.store env.fileExists
        env.imgDims env.gearDir objId depSubj center idLabel hnone
      have hcr := canRender_empty env.store env.fileExists env.gearDir
        depSubj hemp
      simp [renderRichIcon, hr, hcr]
    · simp [renderRichIcon, hr]
  exact ⟨hrichnone, rfl, rfl, rfl⟩

/-- C3 witness: without a renderer (hence on the fallback path), the rich
render outcome is `None` and the emitted fallback dict carries `/IC`, `/C`
and `/BS`. -/
theorem claim_C3_fallback_native_props_witness :
    (∀ c cs n,
      (if envConvert.hasRenderer then
          renderCompoundIcon envConvert.store envConvert.fileExists
            envConvert.imgDims envConvert.gearDir 0 "AP - Cisco MR36H"
            (0, 0) "j100"
        else none) ≠ some (c :: cs, n))
    ∧ ((renderRichIcon envConvert.hasRenderer envConvert.store
          envConvert.fileExists envConvert.gearDir 0 "AP - Cisco MR36H"
          [0, 0, 1, 1] "j100").1 = none
      ∧ (createDeploymentAnnotationDict "NM" envConvert.now [0, 0, 1, 1]
            "AP - Cisco MR36H"
            (createSimpleAppearance
              (renderRichIcon envConvert.hasRenderer envConvert.store
                envConvert.fileExists envConvert.gearDir 0
                "AP - Cisco MR36H" [0, 0, 1, 1] "j100").2
              [0, 0, 1, 1] (0, 0, 0) (0, 0, 0) "/Circle").1
            (0, 0, 0) (0, 0, 0) "/Circle" none).ic.isSome = true
      ∧ (createDeploymentAnnotationDict "NM" envConvert.now [0, 0, 1, 1]
            "AP - Cisco MR36H"
            (createSimpleAppearance
              (renderRichIcon envConvert.hasRenderer envConvert.store
                envConvert.fileExists envConvert.gearDir 0
                "AP - Cisco MR36H" [0, 0, 1, 1] "j100").2
              [0, 0, 1, 1] (0, 0, 0) (0, 0, 0) "/Circle").1
            (0, 0, 0) (0, 0, 0) "/Circle" none).c.isSome = true
      ∧ (createDeploymentAnnotationDict "NM" envConvert.now [0, 0, 1, 1]
            "AP - Cisco MR36H"
            (createSimpleAppearance
              (renderRichIcon envConvert.hasRenderer envConvert.store
                envConvert.fileExists envConvert.gearDir 0
                "AP - Cisco MR36H" [0, 0, 1, 1] "j100").2
              [0, 0, 1, 1] (0, 0, 0) (0, 0, 0) "/Circle").1
            (0, 0, 0) (0, 0, 0) "/Circle" none).bs.isSome = true) :=
  ⟨fun c cs n => by simp [envConvert, envNoInput],
   claim_C3_fallback_native_props envConvert 0 "AP - Cisco MR36H" (0, 0)
     "j100" [0, 0, 1, 1] "NM" (0, 0, 0) (0, 0, 0) "/Circle" none
     (fun c cs n => by simp [envConvert, envNoInput])⟩

/-! ## Fatal setup errors (C6) -/

/-- C6 counterexample: a missing input document does NOT abort
`replace_annotations` with a hard failure — it returns the normal
`(0, 0, [])` tuple. -/
theorem claim_C6_counterexample :
    replaceAnnotations envNoInput [sampleAnnot] = .ok ((0, 0, []), []) := rfl

/-- C6 amended: a missing toolchest root directory makes `load_toolchest`
raise a descriptive error before any file is processed; a missing input
document, however, makes `replace_annotations` return the normal
`(0, 0, [])` result tuple early instead of raising. -/
theorem claim_C6_fatal_setup_amended :
    (∀ (bidDir depDir : Bool) (bidItems depItems : List (Option String × String)),
        loadToolchest false bidDir depDir bidItems depItems
          = .error "Toolchest directory not found")
    ∧ (∀ (env : ConvEnv) (annots : List SrcAnnot),
        env.inputExists = false →
        replaceAnnotations env annots = .ok ((0, 0, []), [])) := by
  constructor
  · intro bidDir depDir bidItems depItems
    rfl
  · intro env annots h
    unfold replaceAnnotations
    rw [if_pos (by simp [h])]

/-- C6 witness: the amended behavior at concrete inputs. -/
theorem claim_C6_fatal_setup_amended_witness :
    loadToolchest false false false [] []
        = .error "Toolchest directory not found"
    ∧ (envNoInput.inputExists = false
        ∧ replaceAnnotations envNoInput [sampleAnnot] = .ok ((0, 0, []), [])) :=
  ⟨claim_C6_fatal_setup_amended.1 false false [] [],
   ⟨rfl, claim_C6_fatal_setup_amended.2 envNoInput [sampleAnnot] rfl⟩⟩

/-! ## Appearance extractor failure behavior (C9) -/

/-- C9 counterexample: asked to load a missing reference document, the
extractor raises `FileNotFoundError` instead of reporting zero entries. -/
theorem claim_C9_counterexample :
    loadFromPdf false true [] = .error "Reference PDF not found" := rfl

/-- C9 amended: `load_from_pdf` raises on a missing (or unopenable)
reference document; the conversion pipeline guards the call and proceeds
without the extractor's data — `replace_annotations` always returns a
normal result whatever the environment. -/
theorem claim_C9_extractor_amended :
    (∀ (openOk : Bool) (annots : List RefAnnot),
        loadFromPdf false openOk annots = .error "Reference PDF not found")
    ∧ (∀ (env : ConvEnv) (annots : List SrcAnnot),
        ∃ r, replaceAnnotations env annots = .ok r) := by
  constructor
  · intro openOk annots
    rfl
  · intro env annots
    unfold replaceAnnotations
    split
    · exact ⟨_, rfl⟩
    · exact ⟨_, rfl⟩

/-- C9 witness: the amended behavior at concrete inputs. -/
theorem claim_C9_extractor_amended_witness :
    loadFromPdf false true [] = .error "Reference PDF not found"
    ∧ ∃ r, replaceAnnotations envConvert [sampleAnnot] = .ok r :=
  ⟨claim_C9_extractor_amended.1 true [],
   claim_C9_extractor_amended.2 envConvert [sampleAnnot]⟩

/-! ## Compression/hex round trip (C8) -/

theorem hexDigit_roundtrip (n : Nat) (h : n < 16) :
    hexDigitVal (hexDigitChar n) = some n := by
  interval_cases n <;> decide

theorem bytesFromHex_roundtrip :
    ∀ bs : List Nat, (∀ b ∈ bs, b < 256) →
      bytesFromHexList (bytesToHexList bs) = some bs := by
  intro bs
  induction bs with
  | nil => intro _; rfl
  | cons b rest ih =>
      intro hlt
      have hb := hlt b (by simp)
      have h1 : hexDigitVal (hexDigitChar (b / 16)) = some (b / 16) :=
        hexDigit_roundtrip _ (by omega)
      have h2 : hexDigitVal (hexDigitChar (b % 16)) = some (b % 16) :=
        hexDigit_roundtrip _ (by omega)
      have hih := ih (fun x hx => hlt x (by simp [hx]))
      show bytesFromHexList (hexDigitChar (b / 16) :: hexDigitChar (b % 16)
          :: bytesToHexList rest) = _
      unfold bytesFromHexList
      rw [h1, h2, hih]
      simp only []
      have harith : 16 * (b / 16) + b % 16 = b := by omega
      rw [harith]

/-- Inflate of a single final stored block. -/
theorem inflateStored_deflateStored_single (data tail : List Nat)
    (h : data.length ≤ 65535) :
    inflateStored (deflateStored data ++ tail) = some (data, tail) := by
  unfold deflateStored
  rw [if_pos h]
  show inflateStored (1 :: data.length % 256 :: data.length / 256
      :: (255 - data.length % 256) :: (255 - data.length / 256)
      :: (data ++ tail)) = _
  unfold inflateStored
  rw [if_pos ⟨Or.inr rfl, rfl, rfl⟩]
  have hmod : data.length % 256 + 256 * (data.length / 256)
      = data.length := Nat.mod_add_div _ _
  rw [hmod]
  rw [if_pos (by simp)]
  rw [if_pos rfl]
  rw [List.take_left, List.drop_left]

/-- Inflating a stored-block deflate stream recovers the data and leaves
the trailer untouched. -/
theorem inflateStored_deflateStored :
    ∀ (n : Nat) (data : List Nat), data.length ≤ n → ∀ tail : List Nat,
      inflateStored (deflateStored data ++ tail) = some (data, tail) := by
  intro n
  induction n with
  | zero =>
      intro data hlen tail
      exact inflateStored_deflateStored_single data tail (by omega)
  | succ m ih =>
      intro data hlen tail
      by_cases h : data.length ≤ 65535
      · exact inflateStored_deflateStored_single data tail h
      · unfold deflateStored
        rw [if_neg h]
        show inflateStored (0 :: 255 :: 255 :: 0 :: 0
            :: ((data.take 65535 ++ deflateStored (data.drop 65535)) ++ tail))
            = _
        unfold inflateStored
        rw [if_pos ⟨Or.inl rfl, rfl, rfl⟩]
        have hlen65 : (data.take 65535).length = 65535 := by
          rw [List.length_take]
          omega
        have hrest : 255 + 256 * 255
            = (data.take 65535).length := by omega
        rw [List.append_assoc]
        rw [if_pos (by rw [List.length_append]; omega)]
        rw [if_neg (by decide)]
        rw [hrest, List.take_left, List.drop_left]
        have hih := ih (data.drop 65535) (by simp; omega) tail
        rw [hih]
        simp only []
        rw [List.take_append_drop]

/-- `zlibDecompress` evaluated on an explicit two-byte header. -/
theorem zlibDecompress_cons (cmf flg : Nat) (rest : List Nat) :
    zlibDecompress (cmf :: flg :: rest)
      = if cmf % 16 = 8 ∧ (cmf * 256 + flg) % 31 = 0 ∧ flg / 32 % 2 = 0 then
          match inflateStored rest with
          | some (d, trailer) =>
              if trailer = adler32Bytes d then some d else none
          | none => none
        else none := rfl

theorem zlibDecompress_roundtrip (data : List Nat) :
    zlibDecompress (zlibCompressStored data) = some data := by
  rw [show zlibCompressStored data
      = 120 :: 156 :: (deflateStored data ++ adler32Bytes data) from rfl,
    zlibDecompress_cons]
  rw [if_pos (by decide)]
  rw [inflateStored_deflateStored data.length data (Nat.le_refl _)
    (adler32Bytes data)]
  show (if adler32Bytes data = adler32Bytes data then some data else none)
      = some data
  rw [if_pos rfl]

theorem deflateStored_lt :
    ∀ (n : Nat) (data : List Nat), data.length ≤ n →
      (∀ b ∈ data, b < 256) → ∀ b ∈ deflateStored data, b < 256 := by
  intro n
  induction n with
  | zero =>
      intro data hlen hdata b hb
      have hdata0 : data = [] := by
        cases data with
        | nil => rfl
        | cons x xs => simp at hlen
      subst hdata0
      unfold deflateStored at hb
      rw [if_pos (by simp)] at hb
      simp at hb
      omega
  | succ m ih =>
      intro data hlen hdata b hb
      by_cases h : data.length ≤ 65535
      · unfold deflateStored at hb
        rw [if_pos h] at hb
        simp only [List.mem_cons] at hb
        rcases hb with hb | hb | hb | hb | hb | hb
        · omega
        · have := Nat.mod_lt data.length (show 0 < 256 by omega)
          omega
        · have : data.length / 256 ≤ 65535 / 256 := Nat.div_le_div_right h
          omega
        · omega
        · omega
        · exact hdata b hb
      · unfold deflateStored at hb
        rw [if_neg h] at hb
        simp only [List.mem_cons, List.mem_append] at hb
        rcases hb with hb | hb | hb | hb | hb | hb | hb
        · omega
        · omega
        · omega
        · omega
        · omega
        · exact hdata b (List.mem_of_mem_take hb)
        · exact ih (data.drop 65535) (by simp; omega)
            (fun x hx => hdata x (List.mem_of_mem_drop hx)) b hb

theorem adler32Bytes_lt (data : List Nat) :
    ∀ b ∈ adler32Bytes data, b < 256 := by
  intro b hb
  simp only [adler32Bytes, List.mem_cons] at hb
  rcases hb with hb | hb | hb | hb | hb
  all_goals first
    | (subst hb; exact Nat.mod_lt _ (by omega))
    | simp at hb

theorem zlibCompressStored_lt (data : List Nat)
    (h : ∀ b ∈ data, b < 256) :
    ∀ b ∈ zlibCompressStored data, b < 256 := by
  intro b hb
  simp only [zlibCompressStored, List.mem_cons, List.mem_append] at hb
  rcases hb with hb | hb | hb | hb
  · omega
  · omega
  · exact deflateStored_lt data.length data (Nat.le_refl _) h b hb
  · exact adler32Bytes_lt data b hb

/-- On ASCII strings, UTF-8 encoding is the plain code-point bytes. -/
theorem utf8Encode_ascii (l : List Char) (h : ∀ c ∈ l, c.toNat < 128) :
    (l.map utf8EncodeChar).flatten = l.map Char.toNat := by
  induction l with
  | nil => rfl
  | cons c rest ih =>
      have hc := h c (by simp)
      have henc : utf8EncodeChar c = [c.toNat] := by
        unfold utf8EncodeChar
        rw [if_pos hc]
      show utf8EncodeChar c ++ (rest.map utf8EncodeChar).flatten = _
      rw [henc, ih (fun x hx => h x (by simp [hx]))]
      rfl

theorem utf8Step_ascii (b : Nat) (rest : List Nat) (h : b < 128) :
    utf8Step (b :: rest) = some (b, rest) := by
  simp [utf8Step, h]

theorem utf8_loop_ascii (l : List Char) (fuel : Nat)
    (h : ∀ c ∈ l, c.toNat < 128) (hf : l.length ≤ fuel) :
    utf8DecodeLoop fuel (l.map Char.toNat) = some l := by
  induction l generalizing fuel with
  | nil => cases fuel <;> rfl
  | cons c rest ih =>
      cases fuel with
      | zero => simp at hf
      | succ f =>
          have hc := h c (by simp)
          have hstep := utf8Step_ascii c.toNat (rest.map Char.toNat) hc
          simp only [List.map_cons, utf8DecodeLoop, hstep]
          rw [ih f (fun x hx => h x (by simp [hx])) (by simpa using hf)]
          simp

theorem utf8_ascii_roundtrip (l : List Char) (h : ∀ c ∈ l, c.toNat < 128) :
    utf8DecodeGo (l.map Char.toNat) = some l := by
  unfold utf8DecodeGo
  exact utf8_loop_ascii l _ h (by simp)

/-- Decoding the encoded form of an ASCII payload yields the payload passed
through `str.strip()` (the final step of `decode_hex_zlib`). -/
theorem decodeHexZlib_encodeHexZlib (payload : String) (h : allAscii payload) :
    decode_hex_zlib (encodeHexZlib payload) = some (pyStrip payload) := by
  have hmap : utf8Encode payload = payload.toList.map Char.toNat :=
    utf8Encode_ascii payload.toList h
  have hbytes : ∀ b ∈ utf8Encode payload, b < 256 := by
    intro b hb
    rw [hmap] at hb
    simp only [List.mem_map] at hb
    obtain ⟨c, hc, rfl⟩ := hb
    have := h c hc
    omega
  have hlt := zlibCompressStored_lt (utf8Encode payload) hbytes
  have hhex : (encodeHexZlib payload).toList
      = '7' :: '8' :: '9' :: 'c'
        :: bytesToHexList (deflateStored (utf8Encode payload)
            ++ adler32Bytes (utf8Encode payload)) := rfl
  have hne : encodeHexZlib payload ≠ "" := by
    intro hcontra
    have h4 := congrArg String.toList hcontra
    rw [hhex] at h4
    simp at h4
  have hstarts : pyStartsWith (pyLower (encodeHexZlib payload)) "789c"
      = true := by
    have e7 : Char.toLower '7' = '7' := by decide
    have e8 : Char.toLower '8' = '8' := by decide
    have e9 : Char.toLower '9' = '9' := by decide
    have ec : Char.toLower 'c' = 'c' := by decide
    show List.isPrefixOf "789c".toList
        ((encodeHexZlib payload).toList.map Char.toLower) = true
    rw [hhex]
    simp only [List.map_cons, e7, e8, e9, ec]
    simp [List.isPrefixOf]
  have hfromhex : bytesFromHexList (encodeHexZlib payload).toList
      = some (zlibCompressStored (utf8Encode payload)) :=
    bytesFromHex_roundtrip (zlibCompressStored (utf8Encode payload)) hlt
  have hzlib := zlibDecompress_roundtrip (utf8Encode payload)
  have hutf8 : utf8DecodeGo (utf8Encode payload) = some payload.toList := by
    rw [hmap]
    exact utf8_ascii_roundtrip payload.toList h
  simp only [decode_hex_zlib, hne, hstarts, hfromhex, hzlib, hutf8]
  rfl

/-- C8, counterexample: the compression/hex round trip is NOT the identity
on every ASCII payload.  `decode_hex_zlib` ends with `str.strip()` (line 92
of `btx_loader.py`), so an ASCII payload with a leading space decodes to its
stripped form, not to itself. -/
theorem claim_C8_counterexample :
    decode_hex_zlib (encodeHexZlib " j100") = some "j100"
      ∧ (" j100" : String) ≠ "j100" := by
  constructor
  · have h : allAscii " j100" := by unfold allAscii; decide
    rw [decodeHexZlib_encodeHexZlib " j100" h]
    decide
  · decide

/-- C8, amended: for every ASCII payload the toolchest encode/decode round
trip returns the payload passed through `str.strip()`; consequently the
round trip is exactly lossless precisely for payloads without leading or
trailing whitespace. -/
theorem claim_C8_roundtrip_amended (payload : String) (h : allAscii payload) :
    decode_hex_zlib (encodeHexZlib payload) = some (pyStrip payload)
      ∧ (pyStrip payload = payload →
          decode_hex_zlib (encodeHexZlib payload) = some payload) := by
  refine ⟨decodeHexZlib_encodeHexZlib payload h, fun hs => ?_⟩
  rw [decodeHexZlib_encodeHexZlib payload h, hs]

theorem claim_C8_roundtrip_amended_witness :
    allAscii "j100"
      ∧ decode_hex_zlib (encodeHexZlib "j100") = some "j100" := by
  have ha : allAscii "j100" := by unfold allAscii; decide
  refine ⟨ha, ?_⟩
  have := (claim_C8_roundtrip_amended "j100" ha).2 (by decide)
  exact this

end PdfConv
